import Mathlib

/-!
Verification of the spherical-platformer core of this repository.

The canonical game-loop variant (the first document in `src/unnamed/part_001`,
lines 1-307) is embedded shallowly below: three.js `Vector3` arithmetic becomes
a `Vec3` record over `ℝ` (three.js `normalize` divides by `length() || 1`, so a
zero vector stays zero), scalar timers and the boomerang distance/cooldown are
kept in exact rational arithmetic (`ℚ`, with `Number.POSITIVE_INFINITY` for the
combo timer modelled by `WithTop ℚ`), and the Rapier physics backend is an
opaque oracle: the ground ray-cast result and the post-`world.step()`
translation/velocity of the player body are per-tick inputs, and
`applyImpulse` adds `invMass • impulse` to the linear velocity.
-/

namespace Garaxy

/-- A three.js `Vector3` over the reals. -/
@[ext]
structure Vec3 where
  x : ℝ
  y : ℝ
  z : ℝ

namespace Vec3

/-- `Vector3.add`. -/
def add (a b : Vec3) : Vec3 := ⟨a.x + b.x, a.y + b.y, a.z + b.z⟩

/-- `Vector3.sub`. -/
def sub (a b : Vec3) : Vec3 := ⟨a.x - b.x, a.y - b.y, a.z - b.z⟩

/-- `Vector3.multiplyScalar`. -/
def smul (v : Vec3) (r : ℝ) : Vec3 := ⟨v.x * r, v.y * r, v.z * r⟩

/-- `Vector3.addScaledVector`. -/
def addScaled (v w : Vec3) (s : ℝ) : Vec3 := v.add (w.smul s)

/-- `Vector3.dot`. -/
def dot (a b : Vec3) : ℝ := a.x * b.x + a.y * b.y + a.z * b.z

/-- `Vector3.crossVectors`. -/
def cross (a b : Vec3) : Vec3 :=
  ⟨a.y * b.z - a.z * b.y, a.z * b.x - a.x * b.z, a.x * b.y - a.y * b.x⟩

/-- `Vector3.lengthSq`. -/
def lengthSq (v : Vec3) : ℝ := v.x * v.x + v.y * v.y + v.z * v.z

/-- `Vector3.length`. -/
noncomputable def length (v : Vec3) : ℝ := Real.sqrt v.lengthSq

open Classical in
/-- `Vector3.normalize`: `divideScalar(this.length() || 1)` — a zero-length
vector is divided by 1, so it stays the zero vector (no NaN). -/
noncomputable def normalize (v : Vec3) : Vec3 :=
  v.smul (1 / (if v.length = 0 then 1 else v.length))

/-- `Vector3.setLength`: `normalize().multiplyScalar(l)`. -/
noncomputable def setLength (v : Vec3) (l : ℝ) : Vec3 := v.normalize.smul l

/-- `Vector3.distanceTo`. -/
noncomputable def distanceTo (a b : Vec3) : ℝ := (a.sub b).length

/-- The zero vector. -/
def zero : Vec3 := ⟨0, 0, 0⟩

@[simp] theorem add_x (a b : Vec3) : (a.add b).x = a.x + b.x := rfl

@[simp] theorem add_y (a b : Vec3) : (a.add b).y = a.y + b.y := rfl

@[simp] theorem add_z (a b : Vec3) : (a.add b).z = a.z + b.z := rfl

@[simp] theorem sub_x (a b : Vec3) : (a.sub b).x = a.x - b.x := rfl

@[simp] theorem sub_y (a b : Vec3) : (a.sub b).y = a.y - b.y := rfl

@[simp] theorem sub_z (a b : Vec3) : (a.sub b).z = a.z - b.z := rfl

@[simp] theorem smul_x (v : Vec3) (r : ℝ) : (v.smul r).x = v.x * r := rfl

@[simp] theorem smul_y (v : Vec3) (r : ℝ) : (v.smul r).y = v.y * r := rfl

@[simp] theorem smul_z (v : Vec3) (r : ℝ) : (v.smul r).z = v.z * r := rfl

@[simp] theorem zero_x : zero.x = 0 := rfl

@[simp] theorem zero_y : zero.y = 0 := rfl

@[simp] theorem zero_z : zero.z = 0 := rfl

theorem lengthSq_nonneg (v : Vec3) : 0 ≤ v.lengthSq := by
  unfold lengthSq
  nlinarith [mul_self_nonneg v.x, mul_self_nonneg v.y, mul_self_nonneg v.z]

theorem length_nonneg (v : Vec3) : 0 ≤ v.length := Real.sqrt_nonneg _

theorem dot_self (v : Vec3) : v.dot v = v.lengthSq := by
  unfold dot lengthSq; ring

theorem length_mul_self (v : Vec3) : v.length * v.length = v.lengthSq :=
  Real.mul_self_sqrt v.lengthSq_nonneg

theorem lengthSq_eq_zero_iff (v : Vec3) : v.lengthSq = 0 ↔ v = zero := by
  constructor
  · intro h
    unfold lengthSq at h
    have hx : v.x = 0 := by
      nlinarith [mul_self_nonneg v.x, mul_self_nonneg v.y, mul_self_nonneg v.z]
    have hy : v.y = 0 := by
      nlinarith [mul_self_nonneg v.x, mul_self_nonneg v.y, mul_self_nonneg v.z]
    have hz : v.z = 0 := by
      nlinarith [mul_self_nonneg v.x, mul_self_nonneg v.y, mul_self_nonneg v.z]
    ext <;> simp [hx, hy, hz]
  · intro h; subst h; simp [lengthSq]

theorem length_eq_zero_iff (v : Vec3) : v.length = 0 ↔ v = zero := by
  rw [length, Real.sqrt_eq_zero v.lengthSq_nonneg, lengthSq_eq_zero_iff]

theorem length_ne_zero (v : Vec3) (h : v ≠ zero) : v.length ≠ 0 := by
  intro h0; exact h (v.length_eq_zero_iff.mp h0)

theorem length_pos (v : Vec3) (h : v ≠ zero) : 0 < v.length :=
  lt_of_le_of_ne v.length_nonneg (fun e => v.length_ne_zero h e.symm)

theorem lengthSq_smul (v : Vec3) (r : ℝ) : (v.smul r).lengthSq = r * r * v.lengthSq := by
  unfold smul lengthSq; ring

theorem length_smul (v : Vec3) (r : ℝ) : (v.smul r).length = |r| * v.length := by
  rw [length, lengthSq_smul, length, show r * r * v.lengthSq = r ^ 2 * v.lengthSq by ring,
    Real.sqrt_mul (sq_nonneg r), Real.sqrt_sq_eq_abs]

theorem smul_one (v : Vec3) : v.smul 1 = v := by ext <;> simp

theorem normalize_of_length_eq_zero (v : Vec3) (h : v.length = 0) : v.normalize = v := by
  rw [normalize, if_pos h]; simpa using v.smul_one

theorem normalize_eq_smul (v : Vec3) (h : v ≠ zero) :
    v.normalize = v.smul (1 / v.length) := by
  rw [normalize, if_neg (v.length_ne_zero h)]

theorem length_normalize (v : Vec3) (h : v ≠ zero) : v.normalize.length = 1 := by
  have hpos := v.length_pos h
  rw [normalize_eq_smul v h, length_smul,
    abs_of_pos (by positivity : (0:ℝ) < 1 / v.length), one_div,
    inv_mul_cancel₀ (ne_of_gt hpos)]

theorem dot_smul_left (v u : Vec3) (r : ℝ) : (v.smul r).dot u = r * v.dot u := by
  unfold smul dot; ring

theorem dot_add_left (a b u : Vec3) : (a.add b).dot u = a.dot u + b.dot u := by
  unfold add dot; ring

theorem dot_sub_left (a b u : Vec3) : (a.sub b).dot u = a.dot u - b.dot u := by
  unfold sub dot; ring

theorem cross_dot_right (a b : Vec3) : (a.cross b).dot b = 0 := by
  unfold cross dot; ring

/-- Lagrange identity in three dimensions. -/
theorem lagrange (a b : Vec3) :
    a.dot b * a.dot b + (a.cross b).lengthSq = a.lengthSq * b.lengthSq := by
  unfold dot cross lengthSq; ring

/-- Cauchy–Schwarz for the `Vec3` dot product. -/
theorem dot_le_length_mul_length (a b : Vec3) : a.dot b ≤ a.length * b.length := by
  have h1 : a.dot b * a.dot b ≤ a.lengthSq * b.lengthSq := by
    have := lagrange a b
    nlinarith [lengthSq_nonneg (a.cross b)]
  have h2 : 0 ≤ a.length * b.length := mul_nonneg a.length_nonneg b.length_nonneg
  nlinarith [a.length_mul_self, b.length_mul_self, a.length_nonneg, b.length_nonneg]

/-- Triangle inequality for the `Vec3` length. -/
theorem length_add_le (a b : Vec3) : (a.add b).length ≤ a.length + b.length := by
  have hsq : (a.add b).lengthSq ≤ (a.length + b.length) * (a.length + b.length) := by
    have hab := a.dot_le_length_mul_length b
    have h1 := a.length_mul_self
    have h2 := b.length_mul_self
    have hexp : (a.add b).lengthSq = a.lengthSq + 2 * a.dot b + b.lengthSq := by
      unfold add lengthSq dot; ring
    nlinarith
  have h0 : 0 ≤ a.length + b.length := add_nonneg a.length_nonneg b.length_nonneg
  calc (a.add b).length = Real.sqrt (a.add b).lengthSq := rfl
    _ ≤ Real.sqrt ((a.length + b.length) * (a.length + b.length)) := Real.sqrt_le_sqrt hsq
    _ = a.length + b.length := Real.sqrt_mul_self h0

/-- Reverse triangle inequality: `‖a‖ - ‖b‖ ≤ ‖a - b‖`. -/
theorem length_sub_ge (a b : Vec3) : a.length - b.length ≤ (a.sub b).length := by
  have h : a.length ≤ (a.sub b).length + b.length := by
    have : (a.sub b).add b = a := by ext <;> simp
    calc a.length = ((a.sub b).add b).length := by rw [this]
      _ ≤ (a.sub b).length + b.length := length_add_le _ b
  linarith

/-- A single component is bounded by the length. -/
theorem abs_z_le_length (v : Vec3) : |v.z| ≤ v.length := by
  rw [length, ← Real.sqrt_sq_eq_abs]
  exact Real.sqrt_le_sqrt (by unfold lengthSq; nlinarith [sq_nonneg v.x, sq_nonneg v.y])

end Vec3

/-- `projectOnPlane` of the source (lines 133-135): `v - n * (v·n)`. -/
def projectOnPlane (v n : Vec3) : Vec3 := v.sub (n.smul (v.dot n))

theorem projectOnPlane_dot (v n : Vec3) (h : n.dot n = 1) :
    (projectOnPlane v n).dot n = 0 := by
  rw [projectOnPlane, Vec3.dot_sub_left, Vec3.dot_smul_left, h]
  ring

/-! ## Constants of the canonical variant (src/unnamed/part_001 lines 5-22).
Quantities that enter three.js vector arithmetic are real; timers and the
boomerang scalar state, which the code only adds, subtracts, clamps and
compares, are kept as exact rationals. -/

noncomputable def PLANET_RADIUS : ℝ := 100

noncomputable def GRAVITY : ℝ := 28

noncomputable def BASE_SPEED : ℝ := 10.5

noncomputable def DASH_MULTIPLIER : ℝ := 1.75

noncomputable def BASE_ACCEL_GROUND : ℝ := 42

noncomputable def BASE_ACCEL_AIR : ℝ := 16

noncomputable def BASE_DRAG_GROUND : ℝ := 8.5

noncomputable def BASE_DRAG_AIR : ℝ := 1.2

def JUMP_IMPULSES : List ℚ := [7.0, 8.5, 10.0]

def JUMP_BUFFER_TIME : ℚ := 0.15

def JUMP_COMBO_WINDOW : ℚ := 0.7

def BOOMERANG_COOLDOWN : ℚ := 2.0

def BOOMERANG_MAX_DIST : ℚ := 16

def BOOMERANG_SPEED : ℚ := 24

noncomputable def BOOMERANG_HIT_RADIUS : ℝ := 1.8

/-- The fixed physics timestep (line 119). -/
def fixedDt : ℚ := 1 / 60

/-- Goal position (line 51): `(0, R+1, -36).normalize() * (R+1.4)`. -/
noncomputable def goalPos : Vec3 :=
  (Vec3.normalize ⟨0, PLANET_RADIUS + 1, -36⟩).smul (PLANET_RADIUS + 1.4)

/-- Enemy local up (line 57): `(0.45, 0.75, -0.48).normalize()`. -/
noncomputable def enemyUp : Vec3 := Vec3.normalize ⟨0.45, 0.75, -0.48⟩

/-- Enemy anchor (line 58): `enemyUp * (R + 1.6)`. -/
noncomputable def enemyAnchor : Vec3 := enemyUp.smul (PLANET_RADIUS + 1.6)

/-- The spawn point above the north pole (lines 97 and 129). -/
noncomputable def spawnPos : Vec3 := ⟨0, PLANET_RADIUS + 3.2, 0⟩

/-! ## Mutable module state of the game loop. -/

/-- Player-side module variables (lines 75, 107-112) together with the
physics body's translation and linear velocity. `comboTimer` is a
`WithTop ℚ` because the code stores `Number.POSITIVE_INFINITY` in it. -/
structure PlayerState where
  pos : Vec3
  vel : Vec3
  grounded : Bool
  wasGrounded : Bool
  jumpComboIndex : ℕ
  comboTimer : WithTop ℚ
  jumpBufferTimer : ℚ
  isClear : Bool
  hitFlash : ℚ

/-- Boomerang module variables (lines 71, 114-117). -/
structure BoomState where
  active : Bool
  outward : Bool
  distance : ℚ
  cooldown : ℚ
  visible : Bool
deriving DecidableEq

structure GameState where
  player : PlayerState
  boom : BoomState

/-- What one call of `physicsStep` reads from outside the mutable state:
the held-key set, the camera yaw, the ground ray-cast answer and the
player body's translation and linear velocity after `world.step()` (the
physics backend is an opaque oracle). -/
structure TickInput where
  rayHit : Bool
  keyW : Bool
  keyA : Bool
  keyS : Bool
  keyD : Bool
  shiftL : Bool
  shiftR : Bool
  yaw : ℝ
  stepPos : Vec3
  stepVel : Vec3

/-- `resetPlayer` (lines 123-131). -/
noncomputable def resetPlayer (s : GameState) : GameState :=
  { s with player := { s.player with
      isClear := false
      jumpBufferTimer := 0
      jumpComboIndex := 0
      comboTimer := ⊤
      pos := spawnPos
      vel := Vec3.zero } }

/-- The `Space` keydown listener (line 78): re-arms the jump buffer to
`JUMP_BUFFER_TIME`; repeated presses overwrite, they do not sum. -/
def pressJump (s : GameState) : GameState :=
  { s with player := { s.player with jumpBufferTimer := JUMP_BUFFER_TIME } }

/-! ## The locomotion phase of `physicsStep` (lines 182-239). -/

def moveXOf (inp : TickInput) : ℤ :=
  (if inp.keyD then 1 else 0) - (if inp.keyA then 1 else 0)

def moveZOf (inp : TickInput) : ℤ :=
  (if inp.keyW then 1 else 0) - (if inp.keyS then 1 else 0)

def dashingOf (inp : TickInput) : Bool := inp.shiftL || inp.shiftR

/-- `(sin yaw, 0, cos yaw)` of line 205. -/
noncomputable def camForwardRaw (yaw : ℝ) : Vec3 := ⟨Real.sin yaw, 0, Real.cos yaw⟩

/-- `camForward` of line 205. -/
noncomputable def camForwardOf (yaw : ℝ) (up : Vec3) : Vec3 :=
  (projectOnPlane (camForwardRaw yaw) up).normalize

/-- `camRight` of line 206. -/
noncomputable def camRightOf (yaw : ℝ) (up : Vec3) : Vec3 :=
  ((camForwardOf yaw up).cross up).normalize

open Classical in
/-- `wishDir` of lines 207-208, with its explicit zero-length guard. -/
noncomputable def wishDirOf (yaw : ℝ) (up : Vec3) (mX mZ : ℤ) : Vec3 :=
  let w := ((camForwardOf yaw up).smul (mZ : ℝ)).add ((camRightOf yaw up).smul (mX : ℝ))
  if 0 < w.lengthSq then w.normalize else w

/-- Combo-timer update of lines 191-192 (land transition resets to 0, then
grounded ticks count up). -/
def comboTimerPost (dt : ℚ) (rayHit wasGrounded : Bool) (t : WithTop ℚ) : WithTop ℚ :=
  let t1 := if rayHit && !wasGrounded then 0 else t
  if rayHit then t1 + (dt : WithTop ℚ) else t1

/-- Buffer-timer update of line 194. -/
def bufferPost (dt b : ℚ) : ℚ := if 0 < b then b - dt else b

/-- Combo index after line 193 (reset whenever the combo timer exceeds the
window — also when the timer is the disarmed `⊤`). -/
def comboIdxPre (dt : ℚ) (inp : TickInput) (s : GameState) : ℕ :=
  if (JUMP_COMBO_WINDOW : WithTop ℚ) <
      comboTimerPost dt inp.rayHit s.player.wasGrounded s.player.comboTimer then 0
  else s.player.jumpComboIndex

/-- The jump branch's guard (line 228): not cleared, grounded, and the
decremented buffer still positive. -/
def jumpFires (dt : ℚ) (inp : TickInput) (s : GameState) : Bool :=
  !s.player.isClear && inp.rayHit && decide (0 < bufferPost dt s.player.jumpBufferTimer)

/-- Combo index at the jump after the re-check of line 229. -/
def comboIdxAtJump (dt : ℚ) (inp : TickInput) (s : GameState) : ℕ :=
  if (JUMP_COMBO_WINDOW : WithTop ℚ) <
      comboTimerPost dt inp.rayHit s.player.wasGrounded s.player.comboTimer then 0
  else comboIdxPre dt inp s

/-- The impulse magnitude of line 230. -/
def jumpImpulseQ (dt : ℚ) (inp : TickInput) (s : GameState) : ℚ :=
  JUMP_IMPULSES.getD (comboIdxAtJump dt inp s) 0

/-- The impulse `applyImpulse` receives this tick, if any. -/
def tickJumpImpulse (dt : ℚ) (inp : TickInput) (s : GameState) : Option ℚ :=
  if jumpFires dt inp s then some (jumpImpulseQ dt inp s) else none

/-- `velocity` of lines 196-198: the tick-start linear velocity with the
unconditional gravity pull `down * GRAVITY * dt` added. -/
noncomputable def velocityWithGravity (dt : ℚ) (s : GameState) : Vec3 :=
  s.player.vel.addScaled ((s.player.pos.normalize).smul (-1)) (GRAVITY * (dt : ℝ))

/-- `tangentialVel` of line 215. -/
noncomputable def tangentialVelOf (dt : ℚ) (s : GameState) : Vec3 :=
  projectOnPlane (velocityWithGravity dt s) (s.player.pos.normalize)

/-- `normalVel` of line 216. -/
noncomputable def normalVelOf (dt : ℚ) (s : GameState) : Vec3 :=
  (velocityWithGravity dt s).sub (tangentialVelOf dt s)

/-- `speedCap` of line 210. -/
noncomputable def speedCapOf (inp : TickInput) : ℝ :=
  BASE_SPEED * (if dashingOf inp then DASH_MULTIPLIER else 1)

/-- `maxDelta` of lines 211-212 and 219 (the dash factor scales the
acceleration constants). -/
noncomputable def maxDeltaOf (dt : ℚ) (inp : TickInput) : ℝ :=
  (if inp.rayHit then BASE_ACCEL_GROUND * (if dashingOf inp then 1.2 else 1)
   else BASE_ACCEL_AIR * (if dashingOf inp then 1.1 else 1)) * (dt : ℝ)

/-- `drag` of lines 213 and 222. -/
noncomputable def dragOf (inp : TickInput) : ℝ :=
  if inp.rayHit then BASE_DRAG_GROUND * (if dashingOf inp then 0.78 else 1)
  else BASE_DRAG_AIR

/-- `targetVel` of line 217. -/
noncomputable def targetVelOf (inp : TickInput) (s : GameState) : Vec3 :=
  (wishDirOf inp.yaw (s.player.pos.normalize) (moveXOf inp) (moveZOf inp)).smul (speedCapOf inp)

open Classical in
/-- `deltaVel` of lines 218-220, with the acceleration clamp. -/
noncomputable def deltaVelOf (dt : ℚ) (inp : TickInput) (s : GameState) : Vec3 :=
  let deltaVel0 := (targetVelOf inp s).sub (tangentialVelOf dt s)
  if maxDeltaOf dt inp < deltaVel0.length then deltaVel0.setLength (maxDeltaOf dt inp)
  else deltaVel0

/-- `tangentialNew` of line 223. -/
noncomputable def tangentialNewOf (dt : ℚ) (inp : TickInput) (s : GameState) : Vec3 :=
  ((tangentialVelOf dt s).add (deltaVelOf dt inp s)).smul (max 0 (1 - dragOf inp * (dt : ℝ)))

/-- The velocity committed by `setLinvel` (lines 196-226 and 238): gravity,
then — unless cleared — steering toward the wish velocity with the
acceleration clamp and drag applied to the tangential component only. -/
noncomputable def commitVelocity (dt : ℚ) (inp : TickInput) (s : GameState) : Vec3 :=
  if s.player.isClear then velocityWithGravity dt s
  else (tangentialNewOf dt inp s).add (normalVelOf dt s)

/-- Rapier `applyImpulse`: the linear velocity gains `impulse * invMass`. -/
def applyImpulse (invMass : ℝ) (v imp : Vec3) : Vec3 := v.add (imp.smul invMass)

/-- The player body's velocity after the whole pre-step phase: the committed
velocity, plus the jump impulse of line 231 when the jump branch runs. -/
noncomputable def velAfterJumpPhase (invMass : ℝ) (dt : ℚ) (inp : TickInput) (s : GameState) : Vec3 :=
  if jumpFires dt inp s then
    applyImpulse invMass (commitVelocity dt inp s)
      ((s.player.pos.normalize).smul ((jumpImpulseQ dt inp s : ℚ) : ℝ))
  else commitVelocity dt inp s

/-- Lines 182-239 of `physicsStep` as a state transformer: ray-cast result,
combo/buffer timers, committed velocity and the jump branch. -/
noncomputable def prePhase (invMass : ℝ) (dt : ℚ) (inp : TickInput) (s : GameState) : GameState :=
  let fires := jumpFires dt inp s
  { s with player := { s.player with
      vel := velAfterJumpPhase invMass dt inp s
      grounded := if fires then false else inp.rayHit
      jumpComboIndex :=
        if fires then
          (if JUMP_IMPULSES.length - 1 ≤ comboIdxAtJump dt inp s then 0
           else comboIdxAtJump dt inp s + 1)
        else comboIdxPre dt inp s
      comboTimer :=
        if fires then ⊤
        else comboTimerPost dt inp.rayHit s.player.wasGrounded s.player.comboTimer
      jumpBufferTimer := if fires then 0 else bufferPost dt s.player.jumpBufferTimer } }

/-! ## The boomerang update (lines 137-180). -/

/-- `THREE.MathUtils.clamp`. -/
def clampQ (v lo hi : ℚ) : ℚ := max lo (min hi v)

/-- The scalar part of `updateEnemyAndBoomerang` (lines 138, 148-167):
unconditional cooldown decrement, launch on expiry while inactive, travel
with clamping, the turn-around at max distance and the deactivation at 0.
It reads nothing but the boomerang state. -/
def boomScalarStep (dt : ℚ) (b : BoomState) : BoomState :=
  let cooldown1 := b.cooldown - dt
  let b1 : BoomState :=
    if !b.active && decide (cooldown1 ≤ 0) then
      { active := true, outward := true, distance := 0,
        cooldown := BOOMERANG_COOLDOWN, visible := true }
    else { b with cooldown := cooldown1 }
  if !b1.active then b1 else
  let d2 := clampQ (b1.distance + (if b1.outward then 1 else -1) * BOOMERANG_SPEED * dt)
      0 BOOMERANG_MAX_DIST
  let outward2 := if BOOMERANG_MAX_DIST ≤ d2 then false else b1.outward
  if d2 ≤ 0 then
    { b1 with active := false, outward := outward2, distance := d2, visible := false }
  else { b1 with outward := outward2, distance := d2 }

open Classical in
/-- `tangentForward` of lines 140-146: the enemy-to-player vector projected
onto the plane normal to `enemyUp`, normalized when its squared length
exceeds the `0.0001` threshold. -/
noncomputable def tangentForwardOf (playerPos : Vec3) : Vec3 :=
  let tf0 := projectOnPlane (playerPos.sub enemyAnchor) enemyUp
  if 0.0001 < tf0.lengthSq then tf0.normalize else tf0

open Classical in
/-- `throwDir` of line 158, with the `(0, 0, 1)` fallback for a degenerate
heading. -/
noncomputable def throwDirOf (playerPos : Vec3) : Vec3 :=
  if 0.0001 < (tangentForwardOf playerPos).lengthSq then tangentForwardOf playerPos
  else ⟨0, 0, 1⟩

/-- The boomerang's world position (line 169). -/
noncomputable def boomerangPosOf (playerPos : Vec3) (d : ℚ) : Vec3 :=
  enemyAnchor.add ((throwDirOf playerPos).smul (d : ℝ))

/-- The proximity-hit condition of line 174, for the given pre-update
boomerang state: the boomerang is still active after this tick's travel and
its position is within the hit radius of the player. -/
noncomputable def boomerangHits (dt : ℚ) (playerPos : Vec3) (b : BoomState) : Prop :=
  (boomScalarStep dt b).active = true ∧
  (boomerangPosOf playerPos (boomScalarStep dt b).distance).distanceTo playerPos
    < BOOMERANG_HIT_RADIUS

open Classical in
/-- `updateEnemyAndBoomerang` (lines 137-180) as a state transformer. On a
proximity hit it adds the tangential knockback of lines 175-178 to the
player body's current linear velocity and arms the hit flash. -/
noncomputable def updateEnemyAndBoomerang (dt : ℚ) (playerPos upAtPlayer : Vec3)
    (s : GameState) : GameState :=
  let b2 := boomScalarStep dt s.boom
  if b2.active then
    let boomerangPos := boomerangPosOf playerPos b2.distance
    if boomerangPos.distanceTo playerPos < BOOMERANG_HIT_RADIUS then
      let push := ((projectOnPlane (playerPos.sub boomerangPos) upAtPlayer).normalize).smul 8.5
      { s with boom := b2,
               player := { s.player with hitFlash := 0.12, vel := s.player.vel.add push } }
    else { s with boom := b2 }
  else { s with boom := b2 }

/-! ## The post-step phase of `physicsStep` (lines 241-253). -/

open Classical in
/-- Lines 241-253: `world.step()` commits the oracle's translation/velocity,
`wasGrounded` latches, then the escape reset, the boomerang update and the
goal check all run against `playerNow` — the position sampled before any
reset this tick performed. -/
noncomputable def postPhase (dt : ℚ) (inp : TickInput) (s1 : GameState) : GameState :=
  let s2 := { s1 with player := { s1.player with
      wasGrounded := s1.player.grounded, pos := inp.stepPos, vel := inp.stepVel } }
  let s3 := if PLANET_RADIUS + 60 < inp.stepPos.length then resetPlayer s2 else s2
  let s4 := updateEnemyAndBoomerang dt inp.stepPos inp.stepPos.normalize s3
  if s4.player.isClear = false ∧ inp.stepPos.distanceTo goalPos < 4.2 then
    { s4 with player := { s4.player with isClear := true } }
  else s4

/-- One whole `physicsStep` (lines 182-254). -/
noncomputable def physicsStep (invMass : ℝ) (dt : ℚ) (inp : TickInput) (s : GameState) :
    GameState :=
  postPhase dt inp (prePhase invMass dt inp s)

/-- The module state right after initialization (lines 96-97, 107-117). -/
noncomputable def initState : GameState :=
  { player := { pos := spawnPos, vel := Vec3.zero, grounded := false, wasGrounded := false,
                jumpComboIndex := 0, comboTimer := ⊤, jumpBufferTimer := 0,
                isClear := false, hitFlash := 0 }
    boom := { active := false, outward := true, distance := 0, cooldown := 1.1,
              visible := false } }

/-- One scheduling step of the real-time loop: a fixed-`dt` physics tick with
arbitrary oracle answers, or one of the key listeners firing between ticks. -/
inductive GameStep (invMass : ℝ) : GameState → GameState → Prop
  | tick (inp : TickInput) (s : GameState) :
      GameStep invMass s (physicsStep invMass fixedDt inp s)
  | press (s : GameState) : GameStep invMass s (pressJump s)
  | reset (s : GameState) : GameStep invMass s (resetPlayer s)

/-- States the game can reach from initialization. -/
def Reachable (invMass : ℝ) (s : GameState) : Prop :=
  Relation.ReflTransGen (GameStep invMass) initState s

/-! ## Helper lemmas: tangentiality of the locomotion pipeline. -/

theorem Vec3.normalize_dot_zero (v u : Vec3) (h : v.dot u = 0) : v.normalize.dot u = 0 := by
  rw [Vec3.normalize, Vec3.dot_smul_left, h, mul_zero]

theorem Vec3.setLength_dot_zero (v u : Vec3) (l : ℝ) (h : v.dot u = 0) :
    (v.setLength l).dot u = 0 := by
  rw [Vec3.setLength, Vec3.dot_smul_left, Vec3.normalize_dot_zero v u h, mul_zero]

theorem Vec3.normalize_unit (v : Vec3) (h : v ≠ Vec3.zero) :
    v.normalize.dot v.normalize = 1 := by
  rw [Vec3.dot_self, ← Vec3.length_mul_self, Vec3.length_normalize v h, one_mul]

theorem wishDirOf_dot_zero (yaw : ℝ) (u : Vec3) (mX mZ : ℤ) (h : u.dot u = 1) :
    (wishDirOf yaw u mX mZ).dot u = 0 := by
  have hf : (camForwardOf yaw u).dot u = 0 :=
    Vec3.normalize_dot_zero _ _ (projectOnPlane_dot _ _ h)
  have hr : (camRightOf yaw u).dot u = 0 :=
    Vec3.normalize_dot_zero _ _ (Vec3.cross_dot_right _ _)
  have hw : (((camForwardOf yaw u).smul (mZ : ℝ)).add
      ((camRightOf yaw u).smul (mX : ℝ))).dot u = 0 := by
    rw [Vec3.dot_add_left, Vec3.dot_smul_left, Vec3.dot_smul_left, hf, hr]; ring
  simp only [wishDirOf]
  split_ifs
  · exact Vec3.normalize_dot_zero _ _ hw
  · exact hw

theorem velocityWithGravity_dot (dt : ℚ) (s : GameState)
    (h : (s.player.pos.normalize).dot (s.player.pos.normalize) = 1) :
    (velocityWithGravity dt s).dot (s.player.pos.normalize)
      = s.player.vel.dot (s.player.pos.normalize) - GRAVITY * (dt : ℝ) := by
  rw [velocityWithGravity, Vec3.addScaled, Vec3.dot_add_left, Vec3.dot_smul_left,
    Vec3.dot_smul_left, h]
  ring

theorem tangentialVelOf_dot (dt : ℚ) (s : GameState)
    (h : (s.player.pos.normalize).dot (s.player.pos.normalize) = 1) :
    (tangentialVelOf dt s).dot (s.player.pos.normalize) = 0 :=
  projectOnPlane_dot _ _ h

theorem deltaVelOf_dot (dt : ℚ) (inp : TickInput) (s : GameState)
    (h : (s.player.pos.normalize).dot (s.player.pos.normalize) = 1) :
    (deltaVelOf dt inp s).dot (s.player.pos.normalize) = 0 := by
  have h0 : ((targetVelOf inp s).sub (tangentialVelOf dt s)).dot (s.player.pos.normalize) = 0 := by
    rw [Vec3.dot_sub_left, targetVelOf, Vec3.dot_smul_left,
      wishDirOf_dot_zero _ _ _ _ h, tangentialVelOf_dot dt s h]
    ring
  simp only [deltaVelOf]
  split_ifs
  · exact Vec3.setLength_dot_zero _ _ _ h0
  · exact h0

theorem tangentialNewOf_dot (dt : ℚ) (inp : TickInput) (s : GameState)
    (h : (s.player.pos.normalize).dot (s.player.pos.normalize) = 1) :
    (tangentialNewOf dt inp s).dot (s.player.pos.normalize) = 0 := by
  rw [tangentialNewOf, Vec3.dot_smul_left, Vec3.dot_add_left,
    tangentialVelOf_dot dt s h, deltaVelOf_dot dt inp s h]
  ring

theorem commitVelocity_dot (dt : ℚ) (inp : TickInput) (s : GameState)
    (h : (s.player.pos.normalize).dot (s.player.pos.normalize) = 1) :
    (commitVelocity dt inp s).dot (s.player.pos.normalize)
      = s.player.vel.dot (s.player.pos.normalize) - GRAVITY * (dt : ℝ) := by
  rw [commitVelocity]
  split_ifs
  · exact velocityWithGravity_dot dt s h
  · rw [Vec3.dot_add_left, tangentialNewOf_dot dt inp s h, normalVelOf, Vec3.dot_sub_left,
      tangentialVelOf_dot dt s h, velocityWithGravity_dot dt s h]
    ring

/-- The normal (radial) part of a vector: `w - projectOnPlane w u = u * (w·u)`. -/
theorem sub_projectOnPlane (w u : Vec3) : w.sub (projectOnPlane w u) = u.smul (w.dot u) := by
  rw [projectOnPlane]; ext <;> simp

theorem projectOnPlane_add (a b u : Vec3) :
    projectOnPlane (a.add b) u = (projectOnPlane a u).add (projectOnPlane b u) := by
  simp only [projectOnPlane, Vec3.dot_add_left]; ext <;> simp <;> ring

theorem projectOnPlane_of_dot_zero (w u : Vec3) (h : w.dot u = 0) :
    projectOnPlane w u = w := by
  rw [projectOnPlane, h]; ext <;> simp

/-! ## Helper lemmas: geometry of the fixed scene points. -/

theorem spawnPos_lengthSq : spawnPos.lengthSq = 103.2 * 103.2 := by
  simp [spawnPos, Vec3.lengthSq, PLANET_RADIUS]; norm_num

theorem spawnPos_length : spawnPos.length = 103.2 := by
  rw [Vec3.length, spawnPos_lengthSq, Real.sqrt_mul_self (by norm_num)]

theorem spawnPos_ne_zero : spawnPos ≠ Vec3.zero := by
  simp only [spawnPos, Vec3.zero, PLANET_RADIUS, ne_eq, Vec3.mk.injEq]
  norm_num

theorem spawnPos_normalize : spawnPos.normalize = ⟨0, 1, 0⟩ := by
  rw [Vec3.normalize, if_neg (by rw [spawnPos_length]; norm_num), spawnPos_length]
  ext <;> simp [spawnPos, PLANET_RADIUS]
  norm_num

theorem goalBase_ne_zero : (⟨0, PLANET_RADIUS + 1, -36⟩ : Vec3) ≠ Vec3.zero := by
  simp only [Vec3.zero, PLANET_RADIUS, ne_eq, Vec3.mk.injEq]
  norm_num

theorem goalBase_length : (⟨0, PLANET_RADIUS + 1, -36⟩ : Vec3).length = Real.sqrt 11497 := by
  rw [Vec3.length]
  congr 1
  simp [Vec3.lengthSq, PLANET_RADIUS]; norm_num

theorem sqrt_11497_lt : Real.sqrt 11497 < 108 := by
  have h : (11497 : ℝ) < 108 * 108 := by norm_num
  calc Real.sqrt 11497 < Real.sqrt (108 * 108) :=
        Real.sqrt_lt_sqrt (by norm_num) h
    _ = 108 := Real.sqrt_mul_self (by norm_num)

theorem sqrt_11497_pos : 0 < Real.sqrt 11497 := Real.sqrt_pos.mpr (by norm_num)

theorem goalPos_length : goalPos.length = 101.4 := by
  rw [goalPos, Vec3.length_smul, Vec3.length_normalize _ goalBase_ne_zero, mul_one,
    PLANET_RADIUS, abs_of_nonneg (by norm_num)]
  norm_num

theorem goalPos_z : goalPos.z = -36 * (1 / Real.sqrt 11497) * 101.4 := by
  rw [goalPos, Vec3.normalize_eq_smul _ goalBase_ne_zero, goalBase_length]
  simp [PLANET_RADIUS]
  norm_num

/-- The spawn point is well clear of the goal ring. -/
theorem spawn_not_near_goal : ¬ (spawnPos.distanceTo goalPos < 4.2) := by
  have hz : (spawnPos.sub goalPos).z = 36 * (1 / Real.sqrt 11497) * 101.4 := by
    rw [Vec3.sub_z, goalPos_z]
    simp [spawnPos]
  have hpos := sqrt_11497_pos
  have hlt := sqrt_11497_lt
  have hzbig : (4.2 : ℝ) < (spawnPos.sub goalPos).z := by
    rw [hz, one_div]
    rw [show (36 : ℝ) * (Real.sqrt 11497)⁻¹ * 101.4 = 3650.4 / Real.sqrt 11497 by
      field_simp; ring]
    rw [lt_div_iff₀ hpos]
    nlinarith
  have habs := Vec3.abs_z_le_length (spawnPos.sub goalPos)
  rw [Vec3.distanceTo]
  push_neg
  calc (4.2 : ℝ) ≤ (spawnPos.sub goalPos).z := le_of_lt hzbig
    _ ≤ |(spawnPos.sub goalPos).z| := le_abs_self _
    _ ≤ (spawnPos.sub goalPos).length := habs

theorem spawn_not_escaped : ¬ (PLANET_RADIUS + 60 < spawnPos.length) := by
  rw [spawnPos_length, PLANET_RADIUS]; norm_num

theorem goalPos_not_escaped : ¬ (PLANET_RADIUS + 60 < goalPos.length) := by
  rw [goalPos_length, PLANET_RADIUS]; norm_num

theorem goalPos_near_goal : goalPos.distanceTo goalPos < 4.2 := by
  have : goalPos.sub goalPos = Vec3.zero := by ext <;> simp
  rw [Vec3.distanceTo, this, (Vec3.length_eq_zero_iff Vec3.zero).mpr rfl]
  norm_num

/-! ## Helper lemmas: the boomerang. -/

theorem enemyUpBase_ne_zero : (⟨0.45, 0.75, -0.48⟩ : Vec3) ≠ Vec3.zero := by
  simp only [Vec3.zero, ne_eq, Vec3.mk.injEq]
  norm_num

theorem enemyAnchor_length : enemyAnchor.length = 101.6 := by
  rw [enemyAnchor, Vec3.length_smul, enemyUp, Vec3.length_normalize _ enemyUpBase_ne_zero,
    mul_one, PLANET_RADIUS, abs_of_nonneg (by norm_num)]
  norm_num

theorem throwDirOf_length (p : Vec3) : (throwDirOf p).length = 1 := by
  rw [throwDirOf]
  split_ifs with h
  · simp only [tangentForwardOf] at h ⊢
    split_ifs at h ⊢ with h0
    · apply Vec3.length_normalize
      intro hzero
      rw [hzero] at h0
      simp [Vec3.lengthSq, Vec3.zero] at h0
      norm_num at h0
    · exact absurd h (by simpa using h0)
  · have h1 : (⟨0, 0, 1⟩ : Vec3).lengthSq = 1 := by simp [Vec3.lengthSq]
    rw [Vec3.length, h1, Real.sqrt_one]

theorem Vec3.length_sub_comm (a b : Vec3) : (a.sub b).length = (b.sub a).length := by
  rw [length, length]
  congr 1
  simp only [lengthSq, sub_x, sub_y, sub_z]
  ring

theorem clampQ_le (v lo hi : ℚ) (h : lo ≤ hi) : clampQ v lo hi ≤ hi :=
  max_le h (min_le_left _ _)

theorem le_clampQ (v lo hi : ℚ) : lo ≤ clampQ v lo hi := le_max_left _ _

/-- Whenever the boomerang ends a tick active, its distance scalar has just
been clamped into `[0, MAX_DIST]`. -/
theorem boomScalarStep_active_bounds (dt : ℚ) (b : BoomState)
    (h : (boomScalarStep dt b).active = true) :
    0 ≤ (boomScalarStep dt b).distance ∧
      (boomScalarStep dt b).distance ≤ BOOMERANG_MAX_DIST := by
  simp only [boomScalarStep] at h ⊢
  split_ifs at h ⊢
  all_goals first
    | (exfalso; simp_all; done)
    | exact ⟨le_clampQ _ _ _, clampQ_le _ _ _ (by rw [BOOMERANG_MAX_DIST]; norm_num)⟩

/-- An idle cooldown tick: inactive boomerang, cooldown not yet expired. -/
theorem boomScalarStep_idle (dt : ℚ) (b : BoomState) (hB : b.active = false)
    (hCD : 0 < b.cooldown - dt) :
    boomScalarStep dt b = { b with cooldown := b.cooldown - dt } := by
  simp only [boomScalarStep, hB, decide_eq_false (not_le.mpr hCD)]
  simp [hB]

theorem updateEnemyAndBoomerang_boom (dt : ℚ) (p u : Vec3) (s : GameState) :
    (updateEnemyAndBoomerang dt p u s).boom = boomScalarStep dt s.boom := by
  simp only [updateEnemyAndBoomerang]
  split_ifs <;> rfl

theorem updateEnemyAndBoomerang_no_hit (dt : ℚ) (p u : Vec3) (s : GameState)
    (h : ¬ boomerangHits dt p s.boom) :
    updateEnemyAndBoomerang dt p u s = { s with boom := boomScalarStep dt s.boom } := by
  rw [boomerangHits] at h
  push_neg at h
  simp only [updateEnemyAndBoomerang]
  split_ifs with h1 h2
  · exact absurd h2 (by simpa using h h1)
  · rfl
  · rfl

/-- `updateEnemyAndBoomerang_no_hit`, keyed on an explicitly split state. -/
theorem updateEnemyAndBoomerang_no_hit_mk (dt : ℚ) (p u : Vec3) (pl : PlayerState)
    (b : BoomState) (h : ¬ boomerangHits dt p b) :
    updateEnemyAndBoomerang dt p u { player := pl, boom := b } =
      { player := pl, boom := boomScalarStep dt b } :=
  updateEnemyAndBoomerang_no_hit dt p u { player := pl, boom := b } h

/-- If the player body escaped past `R + 60`, the boomerang — which stays
within `‖anchor‖ + MAX_DIST = 117.6` of the origin — cannot be within the
hit radius of it. -/
theorem no_hit_when_escaped (dt : ℚ) (p : Vec3) (b : BoomState)
    (h : PLANET_RADIUS + 60 < p.length) : ¬ boomerangHits dt p b := by
  rintro ⟨hact, hdist⟩
  obtain ⟨hd0, hd16⟩ := boomScalarStep_active_bounds dt b hact
  have hthrow := throwDirOf_length p
  have hbl : (boomerangPosOf p (boomScalarStep dt b).distance).length ≤ 101.6 + 16 := by
    rw [boomerangPosOf]
    have h16 : |((boomScalarStep dt b).distance : ℝ)| ≤ 16 := by
      rw [abs_of_nonneg (by exact_mod_cast hd0)]
      have : ((boomScalarStep dt b).distance : ℝ) ≤ ((16 : ℚ) : ℝ) := by
        exact_mod_cast hd16.trans_eq (by rw [BOOMERANG_MAX_DIST])
      simpa using this
    calc (enemyAnchor.add ((throwDirOf p).smul ((boomScalarStep dt b).distance : ℝ))).length
        ≤ enemyAnchor.length + ((throwDirOf p).smul ((boomScalarStep dt b).distance : ℝ)).length :=
          Vec3.length_add_le _ _
      _ = 101.6 + |((boomScalarStep dt b).distance : ℝ)| := by
          rw [enemyAnchor_length, Vec3.length_smul, hthrow, mul_one]
      _ ≤ 101.6 + 16 := by linarith
  have hge : p.length - (boomerangPosOf p (boomScalarStep dt b).distance).length
      ≤ (boomerangPosOf p (boomScalarStep dt b).distance).distanceTo p := by
    rw [Vec3.distanceTo, Vec3.length_sub_comm]
    exact Vec3.length_sub_ge p _
  rw [PLANET_RADIUS] at h
  rw [BOOMERANG_HIT_RADIUS] at hdist
  linarith

theorem not_hits_of_idle (dt : ℚ) (p : Vec3) (b : BoomState) (hB : b.active = false)
    (hCD : 0 < b.cooldown - dt) : ¬ boomerangHits dt p b := by
  rw [boomerangHits, boomScalarStep_idle dt b hB hCD]
  rintro ⟨ha, _⟩
  simp [hB] at ha

/-- A position past the escape radius is far from the goal ring. -/
theorem escaped_far_from_goal (p : Vec3) (h : PLANET_RADIUS + 60 < p.length) :
    ¬ (p.distanceTo goalPos < 4.2) := by
  have h1 := Vec3.length_sub_ge p goalPos
  rw [goalPos_length] at h1
  rw [PLANET_RADIUS] at h
  rw [Vec3.distanceTo]
  intro hlt
  linarith

/-- The post-step phase of a tick whose oracle position escaped: the reset
runs, the stale position can trigger neither a boomerang hit nor the goal
check, and the tick ends at the spawn with zero velocity. -/
theorem postPhase_escape (dt : ℚ) (inp : TickInput) (s1 : GameState)
    (h : PLANET_RADIUS + 60 < inp.stepPos.length) :
    postPhase dt inp s1 =
      { player := { pos := spawnPos, vel := Vec3.zero, grounded := s1.player.grounded,
                    wasGrounded := s1.player.grounded, jumpComboIndex := 0, comboTimer := ⊤,
                    jumpBufferTimer := 0, isClear := false, hitFlash := s1.player.hitFlash },
        boom := boomScalarStep dt s1.boom } := by
  have hfar := escaped_far_from_goal inp.stepPos h
  simp only [postPhase]
  rw [if_pos h]
  simp only [resetPlayer]
  rw [updateEnemyAndBoomerang_no_hit_mk dt inp.stepPos inp.stepPos.normalize _ _
    (no_hit_when_escaped dt inp.stepPos _ h)]
  rw [if_neg (fun hc => hfar hc.2)]

/-- The post-step phase of an uneventful tick: no escape, an idle boomerang
cooldown, and the player not at the goal. Only the pose, `wasGrounded` and
the cooldown change. -/
theorem postPhase_plain (dt : ℚ) (inp : TickInput) (s1 : GameState)
    (hE : ¬ (PLANET_RADIUS + 60 < inp.stepPos.length))
    (hB : s1.boom.active = false) (hCD : 0 < s1.boom.cooldown - dt)
    (hG : ¬ (inp.stepPos.distanceTo goalPos < 4.2)) :
    postPhase dt inp s1 =
      { player := { s1.player with
          wasGrounded := s1.player.grounded, pos := inp.stepPos, vel := inp.stepVel },
        boom := { s1.boom with cooldown := s1.boom.cooldown - dt } } := by
  simp only [postPhase]
  rw [if_neg hE]
  rw [updateEnemyAndBoomerang_no_hit_mk dt inp.stepPos inp.stepPos.normalize _ _
    (not_hits_of_idle dt inp.stepPos _ hB hCD)]
  rw [boomScalarStep_idle dt s1.boom hB hCD]
  rw [if_neg (fun hc => hG hc.2)]

/-- The post-step phase of a tick that touches the goal while not yet
cleared (no escape, idle boomerang): the cleared flag latches. -/
theorem postPhase_clear (dt : ℚ) (inp : TickInput) (s1 : GameState)
    (hE : ¬ (PLANET_RADIUS + 60 < inp.stepPos.length))
    (hB : s1.boom.active = false) (hCD : 0 < s1.boom.cooldown - dt)
    (hG : inp.stepPos.distanceTo goalPos < 4.2) (hC : s1.player.isClear = false) :
    postPhase dt inp s1 =
      { player := { s1.player with
          wasGrounded := s1.player.grounded, pos := inp.stepPos, vel := inp.stepVel,
          isClear := true },
        boom := { s1.boom with cooldown := s1.boom.cooldown - dt } } := by
  simp only [postPhase]
  rw [if_neg hE]
  rw [updateEnemyAndBoomerang_no_hit_mk dt inp.stepPos inp.stepPos.normalize _ _
    (not_hits_of_idle dt inp.stepPos _ hB hCD)]
  rw [boomScalarStep_idle dt s1.boom hB hCD]
  rw [if_pos ⟨hC, hG⟩]

theorem Vec3.length_mk_yaxis (a : ℝ) (h : 0 ≤ a) : (⟨0, a, 0⟩ : Vec3).length = a := by
  have hsq : (⟨0, a, 0⟩ : Vec3).lengthSq = a * a := by simp [Vec3.lengthSq]
  rw [Vec3.length, hsq, Real.sqrt_mul_self h]

theorem Vec3.add_zero_right (v : Vec3) : v.add Vec3.zero = v := by ext <;> simp

theorem Vec3.smul_zero_right (v : Vec3) : v.smul 0 = Vec3.zero := by ext <;> simp

theorem Vec3.normalize_zero : Vec3.zero.normalize = Vec3.zero :=
  Vec3.normalize_of_length_eq_zero _ ((Vec3.length_eq_zero_iff _).mpr rfl)

theorem Vec3.zero_cross (u : Vec3) : Vec3.zero.cross u = Vec3.zero := by
  ext <;> simp [Vec3.cross]

theorem projectOnPlane_smul_self (u : Vec3) (c : ℝ) (hu : u.dot u = 1) :
    projectOnPlane (u.smul c) u = Vec3.zero := by
  rw [projectOnPlane, Vec3.dot_smul_left, hu, mul_one]
  ext <;> simp

theorem normalVelOf_eq (dt : ℚ) (s : GameState) :
    normalVelOf dt s = (s.player.pos.normalize).smul
      ((velocityWithGravity dt s).dot (s.player.pos.normalize)) := by
  rw [normalVelOf, tangentialVelOf, sub_projectOnPlane]

/-- Outside the cleared state, the tangential part of the committed
velocity is exactly the locomotion output `tangentialNew`. -/
theorem commitVelocity_project (dt : ℚ) (inp : TickInput) (s : GameState)
    (hu : (s.player.pos.normalize).dot (s.player.pos.normalize) = 1)
    (hC : s.player.isClear = false) :
    projectOnPlane (commitVelocity dt inp s) (s.player.pos.normalize)
      = tangentialNewOf dt inp s := by
  rw [commitVelocity, if_neg (by simp [hC]), projectOnPlane_add,
    projectOnPlane_of_dot_zero _ _ (tangentialNewOf_dot dt inp s hu), normalVelOf_eq,
    projectOnPlane_smul_self _ _ hu, Vec3.add_zero_right]

/-- Gravity is purely radial: the incoming tangential velocity is the
tangential part of the tick-start velocity. -/
theorem tangentialVelOf_eq_project (dt : ℚ) (s : GameState)
    (hu : (s.player.pos.normalize).dot (s.player.pos.normalize) = 1) :
    tangentialVelOf dt s = projectOnPlane s.player.vel (s.player.pos.normalize) := by
  rw [tangentialVelOf, velocityWithGravity, Vec3.addScaled]
  rw [projectOnPlane_add]
  have hsm : ((s.player.pos.normalize).smul (-1)).smul (GRAVITY * (dt : ℝ))
      = (s.player.pos.normalize).smul (-(GRAVITY * (dt : ℝ))) := by
    ext <;> simp
  rw [hsm, projectOnPlane_smul_self _ _ hu, Vec3.add_zero_right]

/-! ## Claim C1. -/

/-- Claim C1: for every physics tick, the velocity committed to the player
body changes along the instantaneous up vector `normalize(position)` by
exactly `-GRAVITY*dt` relative to the tick-start velocity, plus the jump
impulse (scaled by the body's inverse mass) when the jump branch fires; the
locomotion steps (wish steering, acceleration clamp, drag) act only on the
tangential component and leave the normal component untouched. -/
theorem claim1_gravity_only_normal (invMass : ℝ) (dt : ℚ) (inp : TickInput) (s : GameState)
    (h : s.player.pos ≠ Vec3.zero) :
    (commitVelocity dt inp s).dot (s.player.pos.normalize)
        = s.player.vel.dot (s.player.pos.normalize) - GRAVITY * (dt : ℝ) ∧
    (velAfterJumpPhase invMass dt inp s).dot (s.player.pos.normalize)
        = s.player.vel.dot (s.player.pos.normalize) - GRAVITY * (dt : ℝ)
          + (if jumpFires dt inp s then invMass * ((jumpImpulseQ dt inp s : ℚ) : ℝ) else 0) ∧
    (commitVelocity dt inp s).sub
        (projectOnPlane (commitVelocity dt inp s) (s.player.pos.normalize))
      = (velocityWithGravity dt s).sub
          (projectOnPlane (velocityWithGravity dt s) (s.player.pos.normalize)) ∧
    (s.player.isClear = false →
      projectOnPlane (commitVelocity dt inp s) (s.player.pos.normalize)
        = tangentialNewOf dt inp s) := by
  have hu : (s.player.pos.normalize).dot (s.player.pos.normalize) = 1 :=
    Vec3.normalize_unit _ h
  have hcommit := commitVelocity_dot dt inp s hu
  refine ⟨hcommit, ?_, ?_, ?_⟩
  · rw [velAfterJumpPhase]
    split_ifs with hj
    · rw [applyImpulse, Vec3.dot_add_left, Vec3.dot_smul_left, Vec3.dot_smul_left, hu,
        hcommit]
      ring
    · rw [hcommit]; ring
  · rw [sub_projectOnPlane, sub_projectOnPlane, hcommit, velocityWithGravity_dot dt s hu]
  · intro hC
    rw [commitVelocity, if_neg (by simp [hC]), projectOnPlane_add,
      projectOnPlane_of_dot_zero _ _ (tangentialNewOf_dot dt inp s hu), normalVelOf_eq,
      projectOnPlane_smul_self _ _ hu, Vec3.add_zero_right]

/-- Witness for claim C1 at the initial state with a grounded, key-free tick. -/
theorem claim1_gravity_only_normal_witness :
    (commitVelocity fixedDt ⟨true, false, false, false, false, false, false, 0,
        Vec3.zero, Vec3.zero⟩ initState).dot (initState.player.pos.normalize)
      = initState.player.vel.dot (initState.player.pos.normalize)
        - GRAVITY * ((fixedDt : ℚ) : ℝ) :=
  (claim1_gravity_only_normal 1 fixedDt
    ⟨true, false, false, false, false, false, false, 0, Vec3.zero, Vec3.zero⟩
    initState spawnPos_ne_zero).1

/-! ## Claim C7. -/

/-- Claim C7: if after the physics step the player's distance from the
planet center exceeds `R + 60`, the tick performs a full reset — position
back to the spawn point, velocity zeroed, combo index 0, jump-buffer timer
cleared, combo timer disarmed, and the cleared flag unlatched — regardless
of the prior state. -/
theorem claim7_escape_reset (invMass : ℝ) (dt : ℚ) (inp : TickInput) (s : GameState)
    (h : PLANET_RADIUS + 60 < inp.stepPos.length) :
    (physicsStep invMass dt inp s).player.pos = spawnPos ∧
    (physicsStep invMass dt inp s).player.vel = Vec3.zero ∧
    (physicsStep invMass dt inp s).player.jumpComboIndex = 0 ∧
    (physicsStep invMass dt inp s).player.jumpBufferTimer = 0 ∧
    (physicsStep invMass dt inp s).player.comboTimer = ⊤ ∧
    (physicsStep invMass dt inp s).player.isClear = false := by
  rw [physicsStep, postPhase_escape dt inp _ h]
  exact ⟨rfl, rfl, rfl, rfl, rfl, rfl⟩

/-- Witness for claim C7: a tick whose oracle position is 200 units out. -/
theorem claim7_escape_reset_witness :
    (physicsStep 1 fixedDt ⟨false, false, false, false, false, false, false, 0,
        ⟨0, 200, 0⟩, Vec3.zero⟩ initState).player.pos = spawnPos :=
  (claim7_escape_reset 1 fixedDt
    ⟨false, false, false, false, false, false, false, 0, ⟨0, 200, 0⟩, Vec3.zero⟩
    initState
    (by rw [PLANET_RADIUS, Vec3.length_mk_yaxis 200 (by norm_num)]; norm_num)).1

/-! ## Claim C8. -/

theorem updateEnemyAndBoomerang_isClear_mk (dt : ℚ) (p u : Vec3) (pl : PlayerState)
    (b : BoomState) :
    (updateEnemyAndBoomerang dt p u { player := pl, boom := b }).player.isClear
      = pl.isClear := by
  simp only [updateEnemyAndBoomerang]
  split_ifs <;> rfl

open Classical in
theorem postPhase_isClear_of_not_escape (dt : ℚ) (inp : TickInput) (s1 : GameState)
    (hEsc : ¬ (PLANET_RADIUS + 60 < inp.stepPos.length)) :
    (postPhase dt inp s1).player.isClear
      = (s1.player.isClear || decide (inp.stepPos.distanceTo goalPos < 4.2)) := by
  simp only [postPhase]
  rw [if_neg hEsc]
  by_cases hD : inp.stepPos.distanceTo goalPos < 4.2
  · rw [decide_eq_true hD, Bool.or_true]
    by_cases hC :
        (updateEnemyAndBoomerang dt inp.stepPos inp.stepPos.normalize
          { player := { s1.player with
              wasGrounded := s1.player.grounded, pos := inp.stepPos, vel := inp.stepVel },
            boom := s1.boom }).player.isClear = false
    · rw [if_pos ⟨hC, hD⟩]
    · rw [if_neg (fun hcc => hC hcc.1)]
      rw [updateEnemyAndBoomerang_isClear_mk] at hC ⊢
      exact Bool.not_eq_false _ |>.mp hC
  · rw [decide_eq_false hD, Bool.or_false]
    rw [if_neg (fun hcc => hD hcc.2)]
    rw [updateEnemyAndBoomerang_isClear_mk]

/-- Claim C8: once the player comes within `CLEAR_RADIUS` of the goal the
cleared flag becomes true that tick, it persists through every later tick
that does not reset, and the only core operation that unlatches it is the
reset (here: the escape reset within a tick). -/
theorem claim8_clear_latches (invMass : ℝ) (dt : ℚ) (inp : TickInput) (s : GameState) :
    (inp.stepPos.distanceTo goalPos < 4.2 →
      (physicsStep invMass dt inp s).player.isClear = true) ∧
    (s.player.isClear = true → ¬ (PLANET_RADIUS + 60 < inp.stepPos.length) →
      (physicsStep invMass dt inp s).player.isClear = true) ∧
    ((physicsStep invMass dt inp s).player.isClear = false →
      s.player.isClear = false ∨ PLANET_RADIUS + 60 < inp.stepPos.length) := by
  have hpre : (prePhase invMass dt inp s).player.isClear = s.player.isClear := rfl
  refine ⟨?_, ?_, ?_⟩
  · intro hD
    have hEsc : ¬ (PLANET_RADIUS + 60 < inp.stepPos.length) := by
      intro hEsc
      exact escaped_far_from_goal inp.stepPos hEsc hD
    rw [physicsStep, postPhase_isClear_of_not_escape dt inp _ hEsc, hpre,
      decide_eq_true hD, Bool.or_true]
  · intro hC hEsc
    rw [physicsStep, postPhase_isClear_of_not_escape dt inp _ hEsc, hpre, hC, Bool.true_or]
  · intro hres
    by_cases hEsc : PLANET_RADIUS + 60 < inp.stepPos.length
    · exact Or.inr hEsc
    · left
      rw [physicsStep, postPhase_isClear_of_not_escape dt inp _ hEsc, hpre] at hres
      exact (Bool.or_eq_false_iff.mp hres).1

/-! ## Claim C9. -/

/-- Claim C9: every normalization in the tick update is guarded or falls
back to a defined default, so no degenerate direction produces an undefined
result: three.js `normalize` maps a zero-length vector to itself (division
by `length || 1`), a zero wish vector stays the zero vector (no movement
keys, and also a player position exactly radial to the camera-forward
axis), and a degenerate projectile heading falls back to the fixed default
heading `(0, 0, 1)`. -/
theorem claim9_degenerate_guards :
    (∀ v : Vec3, v.length = 0 → v.normalize = v) ∧
    (∀ (yaw : ℝ) (u : Vec3), wishDirOf yaw u 0 0 = Vec3.zero) ∧
    (∀ (yaw : ℝ) (u : Vec3) (mX mZ : ℤ),
      projectOnPlane (camForwardRaw yaw) u = Vec3.zero →
        wishDirOf yaw u mX mZ = Vec3.zero) ∧
    (∀ p : Vec3, (projectOnPlane (p.sub enemyAnchor) enemyUp).lengthSq ≤ 0.0001 →
      throwDirOf p = ⟨0, 0, 1⟩) := by
  refine ⟨Vec3.normalize_of_length_eq_zero, ?_, ?_, ?_⟩
  · intro yaw u
    simp only [wishDirOf]
    rw [Int.cast_zero, Vec3.smul_zero_right, Vec3.smul_zero_right, Vec3.add_zero_right]
    rw [if_neg (by simp [Vec3.lengthSq])]
  · intro yaw u mX mZ hrad
    have hf : camForwardOf yaw u = Vec3.zero := by
      rw [camForwardOf, hrad, Vec3.normalize_zero]
    have hr : camRightOf yaw u = Vec3.zero := by
      rw [camRightOf, hf, Vec3.zero_cross, Vec3.normalize_zero]
    simp only [wishDirOf]
    rw [hf, hr]
    have hz : ∀ r : ℝ, Vec3.zero.smul r = Vec3.zero := by
      intro r; ext <;> simp
    rw [hz, hz, Vec3.add_zero_right]
    rw [if_neg (by simp [Vec3.lengthSq])]
  · intro p hdeg
    have htf : tangentForwardOf p = projectOnPlane (p.sub enemyAnchor) enemyUp := by
      simp only [tangentForwardOf]
      rw [if_neg (not_lt.mpr hdeg)]
    rw [throwDirOf, htf, if_neg (not_lt.mpr hdeg)]

/-! ## Claim C10. -/

/-- Claim C10 (amended): in a tick whose post-step position escaped, the
boomerang update and the goal check are indeed evaluated against the stale
pre-reset position, but that position is more than `R + 60` from the origin
while the boomerang never leaves `‖anchor‖ + MAX_DIST = 117.6`, so no
proximity hit (and no goal clear) can fire from it: the tick always ends at
the spawn point with exactly zero velocity and `cleared = false`. -/
theorem claim10_no_knockback_after_escape (invMass : ℝ) (dt : ℚ) (inp : TickInput)
    (s : GameState) (h : PLANET_RADIUS + 60 < inp.stepPos.length) :
    ¬ boomerangHits dt inp.stepPos (prePhase invMass dt inp s).boom ∧
    ¬ (inp.stepPos.distanceTo goalPos < 4.2) ∧
    (physicsStep invMass dt inp s).player.vel = Vec3.zero ∧
    (physicsStep invMass dt inp s).player.pos = spawnPos ∧
    (physicsStep invMass dt inp s).player.isClear = false := by
  refine ⟨no_hit_when_escaped dt inp.stepPos _ h, escaped_far_from_goal inp.stepPos h,
    ?_, ?_, ?_⟩ <;>
    rw [physicsStep, postPhase_escape dt inp _ h]

/-- Witness for claim C10's amended statement: a tick 300 units out. -/
theorem claim10_no_knockback_after_escape_witness :
    (physicsStep 1 fixedDt ⟨false, false, false, false, false, false, false, 0,
        ⟨0, 300, 0⟩, Vec3.zero⟩ initState).player.vel = Vec3.zero :=
  (claim10_no_knockback_after_escape 1 fixedDt
    ⟨false, false, false, false, false, false, false, 0, ⟨0, 300, 0⟩, Vec3.zero⟩
    initState
    (by rw [PLANET_RADIUS, Vec3.length_mk_yaxis 300 (by norm_num)]; norm_num)).2.2.1

/-- Counterexample for claim C10 as stated: no tick in which the escape
reset fires can end with a nonzero player velocity — the claimed
stale-position knockback onto the reset body is impossible. -/
theorem claim10_counterexample :
    ¬ ∃ (invMass : ℝ) (dt : ℚ) (inp : TickInput) (s : GameState),
        PLANET_RADIUS + 60 < inp.stepPos.length ∧
        (physicsStep invMass dt inp s).player.vel ≠ Vec3.zero := by
  rintro ⟨invMass, dt, inp, s, hEsc, hV⟩
  exact hV (by rw [physicsStep, postPhase_escape dt inp _ hEsc])

/-! ## Claims C4 and C5. -/

theorem clampQ_eq_self (v lo hi : ℚ) (h1 : lo ≤ v) (h2 : v ≤ hi) : clampQ v lo hi = v := by
  rw [clampQ, min_eq_right h2, max_eq_right h1]

/-- The boomerang state invariant: the distance scalar stays in
`[0, MAX_DIST]`, it is 0 exactly while inactive, and the mesh visibility
tracks the active flag. -/
def BoomInv (b : BoomState) : Prop :=
  (0 ≤ b.distance ∧ b.distance ≤ BOOMERANG_MAX_DIST) ∧
  (b.active = false → b.distance = 0) ∧
  (b.active = true → 0 < b.distance) ∧
  b.visible = b.active

theorem clampQ_pos (v hi : ℚ) (hv : 0 < v) (hhi : 0 < hi) : 0 < clampQ v 0 hi :=
  lt_of_lt_of_le (lt_min hhi hv) (le_max_right _ _)

theorem hi_facts : (0:ℚ) ≤ BOOMERANG_MAX_DIST ∧ (0:ℚ) < BOOMERANG_MAX_DIST := by
  rw [BOOMERANG_MAX_DIST]; norm_num

theorem boomScalarStep_inv (dt : ℚ) (b : BoomState) (hdt : 0 < dt) (h : BoomInv b) :
    BoomInv (boomScalarStep dt b) := by
  obtain ⟨ba, bo, bd, bc, bv⟩ := b
  obtain ⟨⟨hd0, hd16⟩, hoff, hon, hvis⟩ := h
  simp only at hd0 hd16 hoff hon hvis
  have h16 := hi_facts.1
  have hM := hi_facts.2
  have hSdt : (0:ℚ) < 1 * BOOMERANG_SPEED * dt := by rw [BOOMERANG_SPEED]; nlinarith
  cases ba
  · -- inactive at tick start
    subst hvis
    have hbd : bd = 0 := hoff rfl
    subst hbd
    by_cases hcd : bc - dt ≤ 0
    · -- launch
      have hstep : boomScalarStep dt ⟨false, bo, 0, bc, false⟩ =
          (if clampQ (0 + 1 * BOOMERANG_SPEED * dt) 0 BOOMERANG_MAX_DIST ≤ 0 then
            { active := false,
              outward := if BOOMERANG_MAX_DIST ≤
                  clampQ (0 + 1 * BOOMERANG_SPEED * dt) 0 BOOMERANG_MAX_DIST then false
                else true,
              distance := clampQ (0 + 1 * BOOMERANG_SPEED * dt) 0 BOOMERANG_MAX_DIST,
              cooldown := BOOMERANG_COOLDOWN, visible := false }
          else
            { active := true,
              outward := if BOOMERANG_MAX_DIST ≤
                  clampQ (0 + 1 * BOOMERANG_SPEED * dt) 0 BOOMERANG_MAX_DIST then false
                else true,
              distance := clampQ (0 + 1 * BOOMERANG_SPEED * dt) 0 BOOMERANG_MAX_DIST,
              cooldown := BOOMERANG_COOLDOWN, visible := true }) := by
        simp [boomScalarStep, hcd]
      rw [hstep]
      have hpos : 0 < clampQ (0 + 1 * BOOMERANG_SPEED * dt) 0 BOOMERANG_MAX_DIST :=
        clampQ_pos _ _ (by linarith) hM
      rw [if_neg (by linarith)]
      refine ⟨⟨le_clampQ _ _ _, clampQ_le _ _ _ h16⟩, ?_, ?_, rfl⟩
      · intro hh; simp at hh
      · intro _; exact hpos
    · -- idle cooldown tick
      have hstep : boomScalarStep dt ⟨false, bo, 0, bc, false⟩ =
          ⟨false, bo, 0, bc - dt, false⟩ := by
        simp [boomScalarStep, hcd]
      rw [hstep]
      refine ⟨⟨hd0, hd16⟩, fun _ => rfl, ?_, rfl⟩
      intro hh; simp at hh
  · -- active flight
    subst hvis
    have hbd : 0 < bd := hon rfl
    have hstep : boomScalarStep dt ⟨true, bo, bd, bc, true⟩ =
        (if clampQ (bd + (if bo then 1 else -1) * BOOMERANG_SPEED * dt) 0 BOOMERANG_MAX_DIST ≤ 0 then
          { active := false,
            outward := if BOOMERANG_MAX_DIST ≤
                clampQ (bd + (if bo then 1 else -1) * BOOMERANG_SPEED * dt) 0 BOOMERANG_MAX_DIST
              then false else bo,
            distance := clampQ (bd + (if bo then 1 else -1) * BOOMERANG_SPEED * dt) 0 BOOMERANG_MAX_DIST,
            cooldown := bc - dt, visible := false }
        else
          { active := true,
            outward := if BOOMERANG_MAX_DIST ≤
                clampQ (bd + (if bo then 1 else -1) * BOOMERANG_SPEED * dt) 0 BOOMERANG_MAX_DIST
              then false else bo,
            distance := clampQ (bd + (if bo then 1 else -1) * BOOMERANG_SPEED * dt) 0 BOOMERANG_MAX_DIST,
            cooldown := bc - dt, visible := true }) := by
      simp [boomScalarStep]
    rw [hstep]
    by_cases hz : clampQ (bd + (if bo then 1 else -1) * BOOMERANG_SPEED * dt) 0 BOOMERANG_MAX_DIST ≤ 0
    · rw [if_pos hz]
      refine ⟨⟨le_clampQ _ _ _, clampQ_le _ _ _ h16⟩,
        fun _ => le_antisymm hz (le_clampQ _ _ _), ?_, rfl⟩
      intro hh; simp at hh
    · rw [if_neg hz]
      refine ⟨⟨le_clampQ _ _ _, clampQ_le _ _ _ h16⟩, ?_, fun _ => not_le.mp hz, rfl⟩
      intro hh; simp at hh

/-- Peeling one application off an iterate of the boomerang scalar step. -/
theorem boomIterStep (n : ℕ) (b c d : BoomState)
    (h1 : boomScalarStep fixedDt b = c)
    (h2 : (fun x => boomScalarStep fixedDt x)^[n] c = d) :
    (fun x => boomScalarStep fixedDt x)^[n + 1] b = d := by
  rw [Function.iterate_succ_apply]
  simpa [h1] using h2

/-- The first half of a launch cycle: 40 ticks take the just-expired idle
boomerang out to `MAX_DIST` exactly, flipping `outward` on the same tick. -/
theorem boomCycleOut :
    (fun x => boomScalarStep fixedDt x)^[40] (⟨false, true, 0, 0, false⟩ : BoomState) = (⟨true, false, 16, 27/20, true⟩ : BoomState) := by
  have c1 : boomScalarStep fixedDt (⟨false, true, 0, 0, false⟩ : BoomState) = (⟨true, true, 2/5, 2, true⟩ : BoomState) := by
    norm_num [boomScalarStep, clampQ, fixedDt, BOOMERANG_SPEED, BOOMERANG_MAX_DIST,
      BOOMERANG_COOLDOWN]
  have c2 : boomScalarStep fixedDt (⟨true, true, 2/5, 2, true⟩ : BoomState) = (⟨true, true, 4/5, 119/60, true⟩ : BoomState) := by
    norm_num [boomScalarStep, clampQ, fixedDt, BOOMERANG_SPEED, BOOMERANG_MAX_DIST,
      BOOMERANG_COOLDOWN]
  have c3 : boomScalarStep fixedDt (⟨true, true, 4/5, 119/60, true⟩ : BoomState) = (⟨true, true, 6/5, 59/30, true⟩ : BoomState) := by
    norm_num [boomScalarStep, clampQ, fixedDt, BOOMERANG_SPEED, BOOMERANG_MAX_DIST,
      BOOMERANG_COOLDOWN]
  have c4 : boomScalarStep fixedDt (⟨true, true, 6/5, 59/30, true⟩ : BoomState) = (⟨true, true, 8/5, 39/20, true⟩ : BoomState) := by
    norm_num [boomScalarStep, clampQ, fixedDt, BOOMERANG_SPEED, BOOMERANG_MAX_DIST,
      BOOMERANG_COOLDOWN]
  have c5 : boomScalarStep fixedDt (⟨true, true, 8/5, 39/20, true⟩ : BoomState) = (⟨true, true, 2, 29/15, true⟩ : BoomState) := by
    norm_num [boomScalarStep, clampQ, fixedDt, BOOMERANG_SPEED, BOOMERANG_MAX_DIST,
      BOOMERANG_COOLDOWN]
  have c6 : boomScalarStep fixedDt (⟨true, true, 2, 29/15, true⟩ : BoomState) = (⟨true, true, 12/5, 23/12, true⟩ : BoomState) := by
    norm_num [boomScalarStep, clampQ, fixedDt, BOOMERANG_SPEED, BOOMERANG_MAX_DIST,
      BOOMERANG_COOLDOWN]
  have c7 : boomScalarStep fixedDt (⟨true, true, 12/5, 23/12, true⟩ : BoomState) = (⟨true, true, 14/5, 19/10, true⟩ : BoomState) := by
    norm_num [boomScalarStep, clampQ, fixedDt, BOOMERANG_SPEED, BOOMERANG_MAX_DIST,
      BOOMERANG_COOLDOWN]
  have c8 : boomScalarStep fixedDt (⟨true, true, 14/5, 19/10, true⟩ : BoomState) = (⟨true, true, 16/5, 113/60, true⟩ : BoomState) := by
    norm_num [boomScalarStep, clampQ, fixedDt, BOOMERANG_SPEED, BOOMERANG_MAX_DIST,
      BOOMERANG_COOLDOWN]
  have c9 : boomScalarStep fixedDt (⟨true, true, 16/5, 113/60, true⟩ : BoomState) = (⟨true, true, 18/5, 28/15, true⟩ : BoomState) := by
    norm_num [boomScalarStep, clampQ, fixedDt, BOOMERANG_SPEED, BOOMERANG_MAX_DIST,
      BOOMERANG_COOLDOWN]
  have c10 : boomScalarStep fixedDt (⟨true, true, 18/5, 28/15, true⟩ : BoomState) = (⟨true, true, 4, 37/20, true⟩ : BoomState) := by
    norm_num [boomScalarStep, clampQ, fixedDt, BOOMERANG_SPEED, BOOMERANG_MAX_DIST,
      BOOMERANG_COOLDOWN]
  have c11 : boomScalarStep fixedDt (⟨true, true, 4, 37/20, true⟩ : BoomState) = (⟨true, true, 22/5, 11/6, true⟩ : BoomState) := by
    norm_num [boomScalarStep, clampQ, fixedDt, BOOMERANG_SPEED, BOOMERANG_MAX_DIST,
      BOOMERANG_COOLDOWN]
  have c12 : boomScalarStep fixedDt (⟨true, true, 22/5, 11/6, true⟩ : BoomState) = (⟨true, true, 24/5, 109/60, true⟩ : BoomState) := by
    norm_num [boomScalarStep, clampQ, fixedDt, BOOMERANG_SPEED, BOOMERANG_MAX_DIST,
      BOOMERANG_COOLDOWN]
  have c13 : boomScalarStep fixedDt (⟨true, true, 24/5, 109/60, true⟩ : BoomState) = (⟨true, true, 26/5, 9/5, true⟩ : BoomState) := by
    norm_num [boomScalarStep, clampQ, fixedDt, BOOMERANG_SPEED, BOOMERANG_MAX_DIST,
      BOOMERANG_COOLDOWN]
  have c14 : boomScalarStep fixedDt (⟨true, true, 26/5, 9/5, true⟩ : BoomState) = (⟨true, true, 28/5, 107/60, true⟩ : BoomState) := by
    norm_num [boomScalarStep, clampQ, fixedDt, BOOMERANG_SPEED, BOOMERANG_MAX_DIST,
      BOOMERANG_COOLDOWN]
  have c15 : boomScalarStep fixedDt (⟨true, true, 28/5, 107/60, true⟩ : BoomState) = (⟨true, true, 6, 53/30, true⟩ : BoomState) := by
    norm_num [boomScalarStep, clampQ, fixedDt, BOOMERANG_SPEED, BOOMERANG_MAX_DIST,
      BOOMERANG_COOLDOWN]
  have c16 : boomScalarStep fixedDt (⟨true, true, 6, 53/30, true⟩ : BoomState) = (⟨true, true, 32/5, 7/4, true⟩ : BoomState) := by
    norm_num [boomScalarStep, clampQ, fixedDt, BOOMERANG_SPEED, BOOMERANG_MAX_DIST,
      BOOMERANG_COOLDOWN]
  have c17 : boomScalarStep fixedDt (⟨true, true, 32/5, 7/4, true⟩ : BoomState) = (⟨true, true, 34/5, 26/15, true⟩ : BoomState) := by
    norm_num [boomScalarStep, clampQ, fixedDt, BOOMERANG_SPEED, BOOMERANG_MAX_DIST,
      BOOMERANG_COOLDOWN]
  have c18 : boomScalarStep fixedDt (⟨true, true, 34/5, 26/15, true⟩ : BoomState) = (⟨true, true, 36/5, 103/60, true⟩ : BoomState) := by
    norm_num [boomScalarStep, clampQ, fixedDt, BOOMERANG_SPEED, BOOMERANG_MAX_DIST,
      BOOMERANG_COOLDOWN]
  have c19 : boomScalarStep fixedDt (⟨true, true, 36/5, 103/60, true⟩ : BoomState) = (⟨true, true, 38/5, 17/10, true⟩ : BoomState) := by
    norm_num [boomScalarStep, clampQ, fixedDt, BOOMERANG_SPEED, BOOMERANG_MAX_DIST,
      BOOMERANG_COOLDOWN]
  have c20 : boomScalarStep fixedDt (⟨true, true, 38/5, 17/10, true⟩ : BoomState) = (⟨true, true, 8, 101/60, true⟩ : BoomState) := by
    norm_num [boomScalarStep, clampQ, fixedDt, BOOMERANG_SPEED, BOOMERANG_MAX_DIST,
      BOOMERANG_COOLDOWN]
  have c21 : boomScalarStep fixedDt (⟨true, true, 8, 101/60, true⟩ : BoomState) = (⟨true, true, 42/5, 5/3, true⟩ : BoomState) := by
    norm_num [boomScalarStep, clampQ, fixedDt, BOOMERANG_SPEED, BOOMERANG_MAX_DIST,
      BOOMERANG_COOLDOWN]
  have c22 : boomScalarStep fixedDt (⟨true, true, 42/5, 5/3, true⟩ : BoomState) = (⟨true, true, 44/5, 33/20, true⟩ : BoomState) := by
    norm_num [boomScalarStep, clampQ, fixedDt, BOOMERANG_SPEED, BOOMERANG_MAX_DIST,
      BOOMERANG_COOLDOWN]
  have c23 : boomScalarStep fixedDt (⟨true, true, 44/5, 33/20, true⟩ : BoomState) = (⟨true, true, 46/5, 49/30, true⟩ : BoomState) := by
    norm_num [boomScalarStep, clampQ, fixedDt, BOOMERANG_SPEED, BOOMERANG_MAX_DIST,
      BOOMERANG_COOLDOWN]
  have c24 : boomScalarStep fixedDt (⟨true, true, 46/5, 49/30, true⟩ : BoomState) = (⟨true, true, 48/5, 97/60, true⟩ : BoomState) := by
    norm_num [boomScalarStep, clampQ, fixedDt, BOOMERANG_SPEED, BOOMERANG_MAX_DIST,
      BOOMERANG_COOLDOWN]
  have c25 : boomScalarStep fixedDt (⟨true, true, 48/5, 97/60, true⟩ : BoomState) = (⟨true, true, 10, 8/5, true⟩ : BoomState) := by
    norm_num [boomScalarStep, clampQ, fixedDt, BOOMERANG_SPEED, BOOMERANG_MAX_DIST,
      BOOMERANG_COOLDOWN]
  have c26 : boomScalarStep fixedDt (⟨true, true, 10, 8/5, true⟩ : BoomState) = (⟨true, true, 52/5, 19/12, true⟩ : BoomState) := by
    norm_num [boomScalarStep, clampQ, fixedDt, BOOMERANG_SPEED, BOOMERANG_MAX_DIST,
      BOOMERANG_COOLDOWN]
  have c27 : boomScalarStep fixedDt (⟨true, true, 52/5, 19/12, true⟩ : BoomState) = (⟨true, true, 54/5, 47/30, true⟩ : BoomState) := by
    norm_num [boomScalarStep, clampQ, fixedDt, BOOMERANG_SPEED, BOOMERANG_MAX_DIST,
      BOOMERANG_COOLDOWN]
  have c28 : boomScalarStep fixedDt (⟨true, true, 54/5, 47/30, true⟩ : BoomState) = (⟨true, true, 56/5, 31/20, true⟩ : BoomState) := by
    norm_num [boomScalarStep, clampQ, fixedDt, BOOMERANG_SPEED, BOOMERANG_MAX_DIST,
      BOOMERANG_COOLDOWN]
  have c29 : boomScalarStep fixedDt (⟨true, true, 56/5, 31/20, true⟩ : BoomState) = (⟨true, true, 58/5, 23/15, true⟩ : BoomState) := by
    norm_num [boomScalarStep, clampQ, fixedDt, BOOMERANG_SPEED, BOOMERANG_MAX_DIST,
      BOOMERANG_COOLDOWN]
  have c30 : boomScalarStep fixedDt (⟨true, true, 58/5, 23/15, true⟩ : BoomState) = (⟨true, true, 12, 91/60, true⟩ : BoomState) := by
    norm_num [boomScalarStep, clampQ, fixedDt, BOOMERANG_SPEED, BOOMERANG_MAX_DIST,
      BOOMERANG_COOLDOWN]
  have c31 : boomScalarStep fixedDt (⟨true, true, 12, 91/60, true⟩ : BoomState) = (⟨true, true, 62/5, 3/2, true⟩ : BoomState) := by
    norm_num [boomScalarStep, clampQ, fixedDt, BOOMERANG_SPEED, BOOMERANG_MAX_DIST,
      BOOMERANG_COOLDOWN]
  have c32 : boomScalarStep fixedDt (⟨true, true, 62/5, 3/2, true⟩ : BoomState) = (⟨true, true, 64/5, 89/60, true⟩ : BoomState) := by
    norm_num [boomScalarStep, clampQ, fixedDt, BOOMERANG_SPEED, BOOMERANG_MAX_DIST,
      BOOMERANG_COOLDOWN]
  have c33 : boomScalarStep fixedDt (⟨true, true, 64/5, 89/60, true⟩ : BoomState) = (⟨true, true, 66/5, 22/15, true⟩ : BoomState) := by
    norm_num [boomScalarStep, clampQ, fixedDt, BOOMERANG_SPEED, BOOMERANG_MAX_DIST,
      BOOMERANG_COOLDOWN]
  have c34 : boomScalarStep fixedDt (⟨true, true, 66/5, 22/15, true⟩ : BoomState) = (⟨true, true, 68/5, 29/20, true⟩ : BoomState) := by
    norm_num [boomScalarStep, clampQ, fixedDt, BOOMERANG_SPEED, BOOMERANG_MAX_DIST,
      BOOMERANG_COOLDOWN]
  have c35 : boomScalarStep fixedDt (⟨true, true, 68/5, 29/20, true⟩ : BoomState) = (⟨true, true, 14, 43/30, true⟩ : BoomState) := by
    norm_num [boomScalarStep, clampQ, fixedDt, BOOMERANG_SPEED, BOOMERANG_MAX_DIST,
      BOOMERANG_COOLDOWN]
  have c36 : boomScalarStep fixedDt (⟨true, true, 14, 43/30, true⟩ : BoomState) = (⟨true, true, 72/5, 17/12, true⟩ : BoomState) := by
    norm_num [boomScalarStep, clampQ, fixedDt, BOOMERANG_SPEED, BOOMERANG_MAX_DIST,
      BOOMERANG_COOLDOWN]
  have c37 : boomScalarStep fixedDt (⟨true, true, 72/5, 17/12, true⟩ : BoomState) = (⟨true, true, 74/5, 7/5, true⟩ : BoomState) := by
    norm_num [boomScalarStep, clampQ, fixedDt, BOOMERANG_SPEED, BOOMERANG_MAX_DIST,
      BOOMERANG_COOLDOWN]
  have c38 : boomScalarStep fixedDt (⟨true, true, 74/5, 7/5, true⟩ : BoomState) = (⟨true, true, 76/5, 83/60, true⟩ : BoomState) := by
    norm_num [boomScalarStep, clampQ, fixedDt, BOOMERANG_SPEED, BOOMERANG_MAX_DIST,
      BOOMERANG_COOLDOWN]
  have c39 : boomScalarStep fixedDt (⟨true, true, 76/5, 83/60, true⟩ : BoomState) = (⟨true, true, 78/5, 41/30, true⟩ : BoomState) := by
    norm_num [boomScalarStep, clampQ, fixedDt, BOOMERANG_SPEED, BOOMERANG_MAX_DIST,
      BOOMERANG_COOLDOWN]
  have c40 : boomScalarStep fixedDt (⟨true, true, 78/5, 41/30, true⟩ : BoomState) = (⟨true, false, 16, 27/20, true⟩ : BoomState) := by
    norm_num [boomScalarStep, clampQ, fixedDt, BOOMERANG_SPEED, BOOMERANG_MAX_DIST,
      BOOMERANG_COOLDOWN]
  exact boomIterStep 39 _ _ _ c1 (boomIterStep 38 _ _ _ c2 (boomIterStep 37 _ _ _ c3 (boomIterStep 36 _ _ _ c4 (boomIterStep 35 _ _ _ c5 (boomIterStep 34 _ _ _ c6 (boomIterStep 33 _ _ _ c7 (boomIterStep 32 _ _ _ c8 (boomIterStep 31 _ _ _ c9 (boomIterStep 30 _ _ _ c10 (boomIterStep 29 _ _ _ c11 (boomIterStep 28 _ _ _ c12 (boomIterStep 27 _ _ _ c13 (boomIterStep 26 _ _ _ c14 (boomIterStep 25 _ _ _ c15 (boomIterStep 24 _ _ _ c16 (boomIterStep 23 _ _ _ c17 (boomIterStep 22 _ _ _ c18 (boomIterStep 21 _ _ _ c19 (boomIterStep 20 _ _ _ c20 (boomIterStep 19 _ _ _ c21 (boomIterStep 18 _ _ _ c22 (boomIterStep 17 _ _ _ c23 (boomIterStep 16 _ _ _ c24 (boomIterStep 15 _ _ _ c25 (boomIterStep 14 _ _ _ c26 (boomIterStep 13 _ _ _ c27 (boomIterStep 12 _ _ _ c28 (boomIterStep 11 _ _ _ c29 (boomIterStep 10 _ _ _ c30 (boomIterStep 9 _ _ _ c31 (boomIterStep 8 _ _ _ c32 (boomIterStep 7 _ _ _ c33 (boomIterStep 6 _ _ _ c34 (boomIterStep 5 _ _ _ c35 (boomIterStep 4 _ _ _ c36 (boomIterStep 3 _ _ _ c37 (boomIterStep 2 _ _ _ c38 (boomIterStep 1 _ _ _ c39 (boomIterStep 0 _ _ _ c40 rfl)))))))))))))))))))))))))))))))))))))))

/-- The second half of a launch cycle: 40 more ticks bring the distance
back to exactly 0 and deactivate (hide) the boomerang. -/
theorem boomCycleBack :
    (fun x => boomScalarStep fixedDt x)^[40] (⟨true, false, 16, 27/20, true⟩ : BoomState) = (⟨false, false, 0, 41/60, false⟩ : BoomState) := by
  have r1 : boomScalarStep fixedDt (⟨true, false, 16, 27/20, true⟩ : BoomState) = (⟨true, false, 78/5, 4/3, true⟩ : BoomState) := by
    norm_num [boomScalarStep, clampQ, fixedDt, BOOMERANG_SPEED, BOOMERANG_MAX_DIST,
      BOOMERANG_COOLDOWN]
  have r2 : boomScalarStep fixedDt (⟨true, false, 78/5, 4/3, true⟩ : BoomState) = (⟨true, false, 76/5, 79/60, true⟩ : BoomState) := by
    norm_num [boomScalarStep, clampQ, fixedDt, BOOMERANG_SPEED, BOOMERANG_MAX_DIST,
      BOOMERANG_COOLDOWN]
  have r3 : boomScalarStep fixedDt (⟨true, false, 76/5, 79/60, true⟩ : BoomState) = (⟨true, false, 74/5, 13/10, true⟩ : BoomState) := by
    norm_num [boomScalarStep, clampQ, fixedDt, BOOMERANG_SPEED, BOOMERANG_MAX_DIST,
      BOOMERANG_COOLDOWN]
  have r4 : boomScalarStep fixedDt (⟨true, false, 74/5, 13/10, true⟩ : BoomState) = (⟨true, false, 72/5, 77/60, true⟩ : BoomState) := by
    norm_num [boomScalarStep, clampQ, fixedDt, BOOMERANG_SPEED, BOOMERANG_MAX_DIST,
      BOOMERANG_COOLDOWN]
  have r5 : boomScalarStep fixedDt (⟨true, false, 72/5, 77/60, true⟩ : BoomState) = (⟨true, false, 14, 19/15, true⟩ : BoomState) := by
    norm_num [boomScalarStep, clampQ, fixedDt, BOOMERANG_SPEED, BOOMERANG_MAX_DIST,
      BOOMERANG_COOLDOWN]
  have r6 : boomScalarStep fixedDt (⟨true, false, 14, 19/15, true⟩ : BoomState) = (⟨true, false, 68/5, 5/4, true⟩ : BoomState) := by
    norm_num [boomScalarStep, clampQ, fixedDt, BOOMERANG_SPEED, BOOMERANG_MAX_DIST,
      BOOMERANG_COOLDOWN]
  have r7 : boomScalarStep fixedDt (⟨true, false, 68/5, 5/4, true⟩ : BoomState) = (⟨true, false, 66/5, 37/30, true⟩ : BoomState) := by
    norm_num [boomScalarStep, clampQ, fixedDt, BOOMERANG_SPEED, BOOMERANG_MAX_DIST,
      BOOMERANG_COOLDOWN]
  have r8 : boomScalarStep fixedDt (⟨true, false, 66/5, 37/30, true⟩ : BoomState) = (⟨true, false, 64/5, 73/60, true⟩ : BoomState) := by
    norm_num [boomScalarStep, clampQ, fixedDt, BOOMERANG_SPEED, BOOMERANG_MAX_DIST,
      BOOMERANG_COOLDOWN]
  have r9 : boomScalarStep fixedDt (⟨true, false, 64/5, 73/60, true⟩ : BoomState) = (⟨true, false, 62/5, 6/5, true⟩ : BoomState) := by
    norm_num [boomScalarStep, clampQ, fixedDt, BOOMERANG_SPEED, BOOMERANG_MAX_DIST,
      BOOMERANG_COOLDOWN]
  have r10 : boomScalarStep fixedDt (⟨true, false, 62/5, 6/5, true⟩ : BoomState) = (⟨true, false, 12, 71/60, true⟩ : BoomState) := by
    norm_num [boomScalarStep, clampQ, fixedDt, BOOMERANG_SPEED, BOOMERANG_MAX_DIST,
      BOOMERANG_COOLDOWN]
  have r11 : boomScalarStep fixedDt (⟨true, false, 12, 71/60, true⟩ : BoomState) = (⟨true, false, 58/5, 7/6, true⟩ : BoomState) := by
    norm_num [boomScalarStep, clampQ, fixedDt, BOOMERANG_SPEED, BOOMERANG_MAX_DIST,
      BOOMERANG_COOLDOWN]
  have r12 : boomScalarStep fixedDt (⟨true, false, 58/5, 7/6, true⟩ : BoomState) = (⟨true, false, 56/5, 23/20, true⟩ : BoomState) := by
    norm_num [boomScalarStep, clampQ, fixedDt, BOOMERANG_SPEED, BOOMERANG_MAX_DIST,
      BOOMERANG_COOLDOWN]
  have r13 : boomScalarStep fixedDt (⟨true, false, 56/5, 23/20, true⟩ : BoomState) = (⟨true, false, 54/5, 17/15, true⟩ : BoomState) := by
    norm_num [boomScalarStep, clampQ, fixedDt, BOOMERANG_SPEED, BOOMERANG_MAX_DIST,
      BOOMERANG_COOLDOWN]
  have r14 : boomScalarStep fixedDt (⟨true, false, 54/5, 17/15, true⟩ : BoomState) = (⟨true, false, 52/5, 67/60, true⟩ : BoomState) := by
    norm_num [boomScalarStep, clampQ, fixedDt, BOOMERANG_SPEED, BOOMERANG_MAX_DIST,
      BOOMERANG_COOLDOWN]
  have r15 : boomScalarStep fixedDt (⟨true, false, 52/5, 67/60, true⟩ : BoomState) = (⟨true, false, 10, 11/10, true⟩ : BoomState) := by
    norm_num [boomScalarStep, clampQ, fixedDt, BOOMERANG_SPEED, BOOMERANG_MAX_DIST,
      BOOMERANG_COOLDOWN]
  have r16 : boomScalarStep fixedDt (⟨true, false, 10, 11/10, true⟩ : BoomState) = (⟨true, false, 48/5, 13/12, true⟩ : BoomState) := by
    norm_num [boomScalarStep, clampQ, fixedDt, BOOMERANG_SPEED, BOOMERANG_MAX_DIST,
      BOOMERANG_COOLDOWN]
  have r17 : boomScalarStep fixedDt (⟨true, false, 48/5, 13/12, true⟩ : BoomState) = (⟨true, false, 46/5, 16/15, true⟩ : BoomState) := by
    norm_num [boomScalarStep, clampQ, fixedDt, BOOMERANG_SPEED, BOOMERANG_MAX_DIST,
      BOOMERANG_COOLDOWN]
  have r18 : boomScalarStep fixedDt (⟨true, false, 46/5, 16/15, true⟩ : BoomState) = (⟨true, false, 44/5, 21/20, true⟩ : BoomState) := by
    norm_num [boomScalarStep, clampQ, fixedDt, BOOMERANG_SPEED, BOOMERANG_MAX_DIST,
      BOOMERANG_COOLDOWN]
  have r19 : boomScalarStep fixedDt (⟨true, false, 44/5, 21/20, true⟩ : BoomState) = (⟨true, false, 42/5, 31/30, true⟩ : BoomState) := by
    norm_num [boomScalarStep, clampQ, fixedDt, BOOMERANG_SPEED, BOOMERANG_MAX_DIST,
      BOOMERANG_COOLDOWN]
  have r20 : boomScalarStep fixedDt (⟨true, false, 42/5, 31/30, true⟩ : BoomState) = (⟨true, false, 8, 61/60, true⟩ : BoomState) := by
    norm_num [boomScalarStep, clampQ, fixedDt, BOOMERANG_SPEED, BOOMERANG_MAX_DIST,
      BOOMERANG_COOLDOWN]
  have r21 : boomScalarStep fixedDt (⟨true, false, 8, 61/60, true⟩ : BoomState) = (⟨true, false, 38/5, 1, true⟩ : BoomState) := by
    norm_num [boomScalarStep, clampQ, fixedDt, BOOMERANG_SPEED, BOOMERANG_MAX_DIST,
      BOOMERANG_COOLDOWN]
  have r22 : boomScalarStep fixedDt (⟨true, false, 38/5, 1, true⟩ : BoomState) = (⟨true, false, 36/5, 59/60, true⟩ : BoomState) := by
    norm_num [boomScalarStep, clampQ, fixedDt, BOOMERANG_SPEED, BOOMERANG_MAX_DIST,
      BOOMERANG_COOLDOWN]
  have r23 : boomScalarStep fixedDt (⟨true, false, 36/5, 59/60, true⟩ : BoomState) = (⟨true, false, 34/5, 29/30, true⟩ : BoomState) := by
    norm_num [boomScalarStep, clampQ, fixedDt, BOOMERANG_SPEED, BOOMERANG_MAX_DIST,
      BOOMERANG_COOLDOWN]
  have r24 : boomScalarStep fixedDt (⟨true, false, 34/5, 29/30, true⟩ : BoomState) = (⟨true, false, 32/5, 19/20, true⟩ : BoomState) := by
    norm_num [boomScalarStep, clampQ, fixedDt, BOOMERANG_SPEED, BOOMERANG_MAX_DIST,
      BOOMERANG_COOLDOWN]
  have r25 : boomScalarStep fixedDt (⟨true, false, 32/5, 19/20, true⟩ : BoomState) = (⟨true, false, 6, 14/15, true⟩ : BoomState) := by
    norm_num [boomScalarStep, clampQ, fixedDt, BOOMERANG_SPEED, BOOMERANG_MAX_DIST,
      BOOMERANG_COOLDOWN]
  have r26 : boomScalarStep fixedDt (⟨true, false, 6, 14/15, true⟩ : BoomState) = (⟨true, false, 28/5, 11/12, true⟩ : BoomState) := by
    norm_num [boomScalarStep, clampQ, fixedDt, BOOMERANG_SPEED, BOOMERANG_MAX_DIST,
      BOOMERANG_COOLDOWN]
  have r27 : boomScalarStep fixedDt (⟨true, false, 28/5, 11/12, true⟩ : BoomState) = (⟨true, false, 26/5, 9/10, true⟩ : BoomState) := by
    norm_num [boomScalarStep, clampQ, fixedDt, BOOMERANG_SPEED, BOOMERANG_MAX_DIST,
      BOOMERANG_COOLDOWN]
  have r28 : boomScalarStep fixedDt (⟨true, false, 26/5, 9/10, true⟩ : BoomState) = (⟨true, false, 24/5, 53/60, true⟩ : BoomState) := by
    norm_num [boomScalarStep, clampQ, fixedDt, BOOMERANG_SPEED, BOOMERANG_MAX_DIST,
      BOOMERANG_COOLDOWN]
  have r29 : boomScalarStep fixedDt (⟨true, false, 24/5, 53/60, true⟩ : BoomState) = (⟨true, false, 22/5, 13/15, true⟩ : BoomState) := by
    norm_num [boomScalarStep, clampQ, fixedDt, BOOMERANG_SPEED, BOOMERANG_MAX_DIST,
      BOOMERANG_COOLDOWN]
  have r30 : boomScalarStep fixedDt (⟨true, false, 22/5, 13/15, true⟩ : BoomState) = (⟨true, false, 4, 17/20, true⟩ : BoomState) := by
    norm_num [boomScalarStep, clampQ, fixedDt, BOOMERANG_SPEED, BOOMERANG_MAX_DIST,
      BOOMERANG_COOLDOWN]
  have r31 : boomScalarStep fixedDt (⟨true, false, 4, 17/20, true⟩ : BoomState) = (⟨true, false, 18/5, 5/6, true⟩ : BoomState) := by
    norm_num [boomScalarStep, clampQ, fixedDt, BOOMERANG_SPEED, BOOMERANG_MAX_DIST,
      BOOMERANG_COOLDOWN]
  have r32 : boomScalarStep fixedDt (⟨true, false, 18/5, 5/6, true⟩ : BoomState) = (⟨true, false, 16/5, 49/60, true⟩ : BoomState) := by
    norm_num [boomScalarStep, clampQ, fixedDt, BOOMERANG_SPEED, BOOMERANG_MAX_DIST,
      BOOMERANG_COOLDOWN]
  have r33 : boomScalarStep fixedDt (⟨true, false, 16/5, 49/60, true⟩ : BoomState) = (⟨true, false, 14/5, 4/5, true⟩ : BoomState) := by
    norm_num [boomScalarStep, clampQ, fixedDt, BOOMERANG_SPEED, BOOMERANG_MAX_DIST,
      BOOMERANG_COOLDOWN]
  have r34 : boomScalarStep fixedDt (⟨true, false, 14/5, 4/5, true⟩ : BoomState) = (⟨true, false, 12/5, 47/60, true⟩ : BoomState) := by
    norm_num [boomScalarStep, clampQ, fixedDt, BOOMERANG_SPEED, BOOMERANG_MAX_DIST,
      BOOMERANG_COOLDOWN]
  have r35 : boomScalarStep fixedDt (⟨true, false, 12/5, 47/60, true⟩ : BoomState) = (⟨true, false, 2, 23/30, true⟩ : BoomState) := by
    norm_num [boomScalarStep, clampQ, fixedDt, BOOMERANG_SPEED, BOOMERANG_MAX_DIST,
      BOOMERANG_COOLDOWN]
  have r36 : boomScalarStep fixedDt (⟨true, false, 2, 23/30, true⟩ : BoomState) = (⟨true, false, 8/5, 3/4, true⟩ : BoomState) := by
    norm_num [boomScalarStep, clampQ, fixedDt, BOOMERANG_SPEED, BOOMERANG_MAX_DIST,
      BOOMERANG_COOLDOWN]
  have r37 : boomScalarStep fixedDt (⟨true, false, 8/5, 3/4, true⟩ : BoomState) = (⟨true, false, 6/5, 11/15, true⟩ : BoomState) := by
    norm_num [boomScalarStep, clampQ, fixedDt, BOOMERANG_SPEED, BOOMERANG_MAX_DIST,
      BOOMERANG_COOLDOWN]
  have r38 : boomScalarStep fixedDt (⟨true, false, 6/5, 11/15, true⟩ : BoomState) = (⟨true, false, 4/5, 43/60, true⟩ : BoomState) := by
    norm_num [boomScalarStep, clampQ, fixedDt, BOOMERANG_SPEED, BOOMERANG_MAX_DIST,
      BOOMERANG_COOLDOWN]
  have r39 : boomScalarStep fixedDt (⟨true, false, 4/5, 43/60, true⟩ : BoomState) = (⟨true, false, 2/5, 7/10, true⟩ : BoomState) := by
    norm_num [boomScalarStep, clampQ, fixedDt, BOOMERANG_SPEED, BOOMERANG_MAX_DIST,
      BOOMERANG_COOLDOWN]
  have r40 : boomScalarStep fixedDt (⟨true, false, 2/5, 7/10, true⟩ : BoomState) = (⟨false, false, 0, 41/60, false⟩ : BoomState) := by
    norm_num [boomScalarStep, clampQ, fixedDt, BOOMERANG_SPEED, BOOMERANG_MAX_DIST,
      BOOMERANG_COOLDOWN]
  exact boomIterStep 39 _ _ _ r1 (boomIterStep 38 _ _ _ r2 (boomIterStep 37 _ _ _ r3 (boomIterStep 36 _ _ _ r4 (boomIterStep 35 _ _ _ r5 (boomIterStep 34 _ _ _ r6 (boomIterStep 33 _ _ _ r7 (boomIterStep 32 _ _ _ r8 (boomIterStep 31 _ _ _ r9 (boomIterStep 30 _ _ _ r10 (boomIterStep 29 _ _ _ r11 (boomIterStep 28 _ _ _ r12 (boomIterStep 27 _ _ _ r13 (boomIterStep 26 _ _ _ r14 (boomIterStep 25 _ _ _ r15 (boomIterStep 24 _ _ _ r16 (boomIterStep 23 _ _ _ r17 (boomIterStep 22 _ _ _ r18 (boomIterStep 21 _ _ _ r19 (boomIterStep 20 _ _ _ r20 (boomIterStep 19 _ _ _ r21 (boomIterStep 18 _ _ _ r22 (boomIterStep 17 _ _ _ r23 (boomIterStep 16 _ _ _ r24 (boomIterStep 15 _ _ _ r25 (boomIterStep 14 _ _ _ r26 (boomIterStep 13 _ _ _ r27 (boomIterStep 12 _ _ _ r28 (boomIterStep 11 _ _ _ r29 (boomIterStep 10 _ _ _ r30 (boomIterStep 9 _ _ _ r31 (boomIterStep 8 _ _ _ r32 (boomIterStep 7 _ _ _ r33 (boomIterStep 6 _ _ _ r34 (boomIterStep 5 _ _ _ r35 (boomIterStep 4 _ _ _ r36 (boomIterStep 3 _ _ _ r37 (boomIterStep 2 _ _ _ r38 (boomIterStep 1 _ _ _ r39 (boomIterStep 0 _ _ _ r40 rfl)))))))))))))))))))))))))))))))))))))))

theorem boomCycleFull :
    (fun x => boomScalarStep fixedDt x)^[80] (⟨false, true, 0, 0, false⟩ : BoomState) = (⟨false, false, 0, 41/60, false⟩ : BoomState) := by
  rw [show (80 : ℕ) = 40 + 40 from rfl, Function.iterate_add_apply, boomCycleOut,
    boomCycleBack]

/-- 66 fixed ticks from the initial boomerang state produce the first
launch: the state is active with the cooldown freshly reset to 2. -/
theorem physicsStep_boom (invMass : ℝ) (dt : ℚ) (inp : TickInput) (st : GameState) :
    (physicsStep invMass dt inp st).boom = boomScalarStep dt st.boom := by
  simp only [physicsStep, postPhase, resetPlayer]
  split_ifs <;> (simp only [updateEnemyAndBoomerang_boom]; rfl)

theorem reachable_boomInv (invMass : ℝ) (s : GameState) (h : Reachable invMass s) :
    BoomInv s.boom := by
  induction h with
  | refl =>
      refine ⟨⟨?_, ?_⟩, ?_, ?_, ?_⟩ <;> simp [initState, BoomInv]
      norm_num [BOOMERANG_MAX_DIST]
  | tail hr hs ih =>
      cases hs with
      | tick inp s' =>
          rw [physicsStep_boom]
          exact boomScalarStep_inv fixedDt _ (by norm_num [fixedDt]) ih
      | press s' => exact ih
      | reset s' => exact ih

theorem boomReachActive :
    (fun x => boomScalarStep fixedDt x)^[66] (⟨false, true, 0, 11/10, false⟩ : BoomState) = (⟨true, true, 2/5, 2, true⟩ : BoomState) := by
  have a1 : boomScalarStep fixedDt (⟨false, true, 0, 11/10, false⟩ : BoomState) = (⟨false, true, 0, 13/12, false⟩ : BoomState) := by
    norm_num [boomScalarStep, clampQ, fixedDt, BOOMERANG_SPEED, BOOMERANG_MAX_DIST,
      BOOMERANG_COOLDOWN]
  have a2 : boomScalarStep fixedDt (⟨false, true, 0, 13/12, false⟩ : BoomState) = (⟨false, true, 0, 16/15, false⟩ : BoomState) := by
    norm_num [boomScalarStep, clampQ, fixedDt, BOOMERANG_SPEED, BOOMERANG_MAX_DIST,
      BOOMERANG_COOLDOWN]
  have a3 : boomScalarStep fixedDt (⟨false, true, 0, 16/15, false⟩ : BoomState) = (⟨false, true, 0, 21/20, false⟩ : BoomState) := by
    norm_num [boomScalarStep, clampQ, fixedDt, BOOMERANG_SPEED, BOOMERANG_MAX_DIST,
      BOOMERANG_COOLDOWN]
  have a4 : boomScalarStep fixedDt (⟨false, true, 0, 21/20, false⟩ : BoomState) = (⟨false, true, 0, 31/30, false⟩ : BoomState) := by
    norm_num [boomScalarStep, clampQ, fixedDt, BOOMERANG_SPEED, BOOMERANG_MAX_DIST,
      BOOMERANG_COOLDOWN]
  have a5 : boomScalarStep fixedDt (⟨false, true, 0, 31/30, false⟩ : BoomState) = (⟨false, true, 0, 61/60, false⟩ : BoomState) := by
    norm_num [boomScalarStep, clampQ, fixedDt, BOOMERANG_SPEED, BOOMERANG_MAX_DIST,
      BOOMERANG_COOLDOWN]
  have a6 : boomScalarStep fixedDt (⟨false, true, 0, 61/60, false⟩ : BoomState) = (⟨false, true, 0, 1, false⟩ : BoomState) := by
    norm_num [boomScalarStep, clampQ, fixedDt, BOOMERANG_SPEED, BOOMERANG_MAX_DIST,
      BOOMERANG_COOLDOWN]
  have a7 : boomScalarStep fixedDt (⟨false, true, 0, 1, false⟩ : BoomState) = (⟨false, true, 0, 59/60, false⟩ : BoomState) := by
    norm_num [boomScalarStep, clampQ, fixedDt, BOOMERANG_SPEED, BOOMERANG_MAX_DIST,
      BOOMERANG_COOLDOWN]
  have a8 : boomScalarStep fixedDt (⟨false, true, 0, 59/60, false⟩ : BoomState) = (⟨false, true, 0, 29/30, false⟩ : BoomState) := by
    norm_num [boomScalarStep, clampQ, fixedDt, BOOMERANG_SPEED, BOOMERANG_MAX_DIST,
      BOOMERANG_COOLDOWN]
  have a9 : boomScalarStep fixedDt (⟨false, true, 0, 29/30, false⟩ : BoomState) = (⟨false, true, 0, 19/20, false⟩ : BoomState) := by
    norm_num [boomScalarStep, clampQ, fixedDt, BOOMERANG_SPEED, BOOMERANG_MAX_DIST,
      BOOMERANG_COOLDOWN]
  have a10 : boomScalarStep fixedDt (⟨false, true, 0, 19/20, false⟩ : BoomState) = (⟨false, true, 0, 14/15, false⟩ : BoomState) := by
    norm_num [boomScalarStep, clampQ, fixedDt, BOOMERANG_SPEED, BOOMERANG_MAX_DIST,
      BOOMERANG_COOLDOWN]
  have a11 : boomScalarStep fixedDt (⟨false, true, 0, 14/15, false⟩ : BoomState) = (⟨false, true, 0, 11/12, false⟩ : BoomState) := by
    norm_num [boomScalarStep, clampQ, fixedDt, BOOMERANG_SPEED, BOOMERANG_MAX_DIST,
      BOOMERANG_COOLDOWN]
  have a12 : boomScalarStep fixedDt (⟨false, true, 0, 11/12, false⟩ : BoomState) = (⟨false, true, 0, 9/10, false⟩ : BoomState) := by
    norm_num [boomScalarStep, clampQ, fixedDt, BOOMERANG_SPEED, BOOMERANG_MAX_DIST,
      BOOMERANG_COOLDOWN]
  have a13 : boomScalarStep fixedDt (⟨false, true, 0, 9/10, false⟩ : BoomState) = (⟨false, true, 0, 53/60, false⟩ : BoomState) := by
    norm_num [boomScalarStep, clampQ, fixedDt, BOOMERANG_SPEED, BOOMERANG_MAX_DIST,
      BOOMERANG_COOLDOWN]
  have a14 : boomScalarStep fixedDt (⟨false, true, 0, 53/60, false⟩ : BoomState) = (⟨false, true, 0, 13/15, false⟩ : BoomState) := by
    norm_num [boomScalarStep, clampQ, fixedDt, BOOMERANG_SPEED, BOOMERANG_MAX_DIST,
      BOOMERANG_COOLDOWN]
  have a15 : boomScalarStep fixedDt (⟨false, true, 0, 13/15, false⟩ : BoomState) = (⟨false, true, 0, 17/20, false⟩ : BoomState) := by
    norm_num [boomScalarStep, clampQ, fixedDt, BOOMERANG_SPEED, BOOMERANG_MAX_DIST,
      BOOMERANG_COOLDOWN]
  have a16 : boomScalarStep fixedDt (⟨false, true, 0, 17/20, false⟩ : BoomState) = (⟨false, true, 0, 5/6, false⟩ : BoomState) := by
    norm_num [boomScalarStep, clampQ, fixedDt, BOOMERANG_SPEED, BOOMERANG_MAX_DIST,
      BOOMERANG_COOLDOWN]
  have a17 : boomScalarStep fixedDt (⟨false, true, 0, 5/6, false⟩ : BoomState) = (⟨false, true, 0, 49/60, false⟩ : BoomState) := by
    norm_num [boomScalarStep, clampQ, fixedDt, BOOMERANG_SPEED, BOOMERANG_MAX_DIST,
      BOOMERANG_COOLDOWN]
  have a18 : boomScalarStep fixedDt (⟨false, true, 0, 49/60, false⟩ : BoomState) = (⟨false, true, 0, 4/5, false⟩ : BoomState) := by
    norm_num [boomScalarStep, clampQ, fixedDt, BOOMERANG_SPEED, BOOMERANG_MAX_DIST,
      BOOMERANG_COOLDOWN]
  have a19 : boomScalarStep fixedDt (⟨false, true, 0, 4/5, false⟩ : BoomState) = (⟨false, true, 0, 47/60, false⟩ : BoomState) := by
    norm_num [boomScalarStep, clampQ, fixedDt, BOOMERANG_SPEED, BOOMERANG_MAX_DIST,
      BOOMERANG_COOLDOWN]
  have a20 : boomScalarStep fixedDt (⟨false, true, 0, 47/60, false⟩ : BoomState) = (⟨false, true, 0, 23/30, false⟩ : BoomState) := by
    norm_num [boomScalarStep, clampQ, fixedDt, BOOMERANG_SPEED, BOOMERANG_MAX_DIST,
      BOOMERANG_COOLDOWN]
  have a21 : boomScalarStep fixedDt (⟨false, true, 0, 23/30, false⟩ : BoomState) = (⟨false, true, 0, 3/4, false⟩ : BoomState) := by
    norm_num [boomScalarStep, clampQ, fixedDt, BOOMERANG_SPEED, BOOMERANG_MAX_DIST,
      BOOMERANG_COOLDOWN]
  have a22 : boomScalarStep fixedDt (⟨false, true, 0, 3/4, false⟩ : BoomState) = (⟨false, true, 0, 11/15, false⟩ : BoomState) := by
    norm_num [boomScalarStep, clampQ, fixedDt, BOOMERANG_SPEED, BOOMERANG_MAX_DIST,
      BOOMERANG_COOLDOWN]
  have a23 : boomScalarStep fixedDt (⟨false, true, 0, 11/15, false⟩ : BoomState) = (⟨false, true, 0, 43/60, false⟩ : BoomState) := by
    norm_num [boomScalarStep, clampQ, fixedDt, BOOMERANG_SPEED, BOOMERANG_MAX_DIST,
      BOOMERANG_COOLDOWN]
  have a24 : boomScalarStep fixedDt (⟨false, true, 0, 43/60, false⟩ : BoomState) = (⟨false, true, 0, 7/10, false⟩ : BoomState) := by
    norm_num [boomScalarStep, clampQ, fixedDt, BOOMERANG_SPEED, BOOMERANG_MAX_DIST,
      BOOMERANG_COOLDOWN]
  have a25 : boomScalarStep fixedDt (⟨false, true, 0, 7/10, false⟩ : BoomState) = (⟨false, true, 0, 41/60, false⟩ : BoomState) := by
    norm_num [boomScalarStep, clampQ, fixedDt, BOOMERANG_SPEED, BOOMERANG_MAX_DIST,
      BOOMERANG_COOLDOWN]
  have a26 : boomScalarStep fixedDt (⟨false, true, 0, 41/60, false⟩ : BoomState) = (⟨false, true, 0, 2/3, false⟩ : BoomState) := by
    norm_num [boomScalarStep, clampQ, fixedDt, BOOMERANG_SPEED, BOOMERANG_MAX_DIST,
      BOOMERANG_COOLDOWN]
  have a27 : boomScalarStep fixedDt (⟨false, true, 0, 2/3, false⟩ : BoomState) = (⟨false, true, 0, 13/20, false⟩ : BoomState) := by
    norm_num [boomScalarStep, clampQ, fixedDt, BOOMERANG_SPEED, BOOMERANG_MAX_DIST,
      BOOMERANG_COOLDOWN]
  have a28 : boomScalarStep fixedDt (⟨false, true, 0, 13/20, false⟩ : BoomState) = (⟨false, true, 0, 19/30, false⟩ : BoomState) := by
    norm_num [boomScalarStep, clampQ, fixedDt, BOOMERANG_SPEED, BOOMERANG_MAX_DIST,
      BOOMERANG_COOLDOWN]
  have a29 : boomScalarStep fixedDt (⟨false, true, 0, 19/30, false⟩ : BoomState) = (⟨false, true, 0, 37/60, false⟩ : BoomState) := by
    norm_num [boomScalarStep, clampQ, fixedDt, BOOMERANG_SPEED, BOOMERANG_MAX_DIST,
      BOOMERANG_COOLDOWN]
  have a30 : boomScalarStep fixedDt (⟨false, true, 0, 37/60, false⟩ : BoomState) = (⟨false, true, 0, 3/5, false⟩ : BoomState) := by
    norm_num [boomScalarStep, clampQ, fixedDt, BOOMERANG_SPEED, BOOMERANG_MAX_DIST,
      BOOMERANG_COOLDOWN]
  have a31 : boomScalarStep fixedDt (⟨false, true, 0, 3/5, false⟩ : BoomState) = (⟨false, true, 0, 7/12, false⟩ : BoomState) := by
    norm_num [boomScalarStep, clampQ, fixedDt, BOOMERANG_SPEED, BOOMERANG_MAX_DIST,
      BOOMERANG_COOLDOWN]
  have a32 : boomScalarStep fixedDt (⟨false, true, 0, 7/12, false⟩ : BoomState) = (⟨false, true, 0, 17/30, false⟩ : BoomState) := by
    norm_num [boomScalarStep, clampQ, fixedDt, BOOMERANG_SPEED, BOOMERANG_MAX_DIST,
      BOOMERANG_COOLDOWN]
  have a33 : boomScalarStep fixedDt (⟨false, true, 0, 17/30, false⟩ : BoomState) = (⟨false, true, 0, 11/20, false⟩ : BoomState) := by
    norm_num [boomScalarStep, clampQ, fixedDt, BOOMERANG_SPEED, BOOMERANG_MAX_DIST,
      BOOMERANG_COOLDOWN]
  have a34 : boomScalarStep fixedDt (⟨false, true, 0, 11/20, false⟩ : BoomState) = (⟨false, true, 0, 8/15, false⟩ : BoomState) := by
    norm_num [boomScalarStep, clampQ, fixedDt, BOOMERANG_SPEED, BOOMERANG_MAX_DIST,
      BOOMERANG_COOLDOWN]
  have a35 : boomScalarStep fixedDt (⟨false, true, 0, 8/15, false⟩ : BoomState) = (⟨false, true, 0, 31/60, false⟩ : BoomState) := by
    norm_num [boomScalarStep, clampQ, fixedDt, BOOMERANG_SPEED, BOOMERANG_MAX_DIST,
      BOOMERANG_COOLDOWN]
  have a36 : boomScalarStep fixedDt (⟨false, true, 0, 31/60, false⟩ : BoomState) = (⟨false, true, 0, 1/2, false⟩ : BoomState) := by
    norm_num [boomScalarStep, clampQ, fixedDt, BOOMERANG_SPEED, BOOMERANG_MAX_DIST,
      BOOMERANG_COOLDOWN]
  have a37 : boomScalarStep fixedDt (⟨false, true, 0, 1/2, false⟩ : BoomState) = (⟨false, true, 0, 29/60, false⟩ : BoomState) := by
    norm_num [boomScalarStep, clampQ, fixedDt, BOOMERANG_SPEED, BOOMERANG_MAX_DIST,
      BOOMERANG_COOLDOWN]
  have a38 : boomScalarStep fixedDt (⟨false, true, 0, 29/60, false⟩ : BoomState) = (⟨false, true, 0, 7/15, false⟩ : BoomState) := by
    norm_num [boomScalarStep, clampQ, fixedDt, BOOMERANG_SPEED, BOOMERANG_MAX_DIST,
      BOOMERANG_COOLDOWN]
  have a39 : boomScalarStep fixedDt (⟨false, true, 0, 7/15, false⟩ : BoomState) = (⟨false, true, 0, 9/20, false⟩ : BoomState) := by
    norm_num [boomScalarStep, clampQ, fixedDt, BOOMERANG_SPEED, BOOMERANG_MAX_DIST,
      BOOMERANG_COOLDOWN]
  have a40 : boomScalarStep fixedDt (⟨false, true, 0, 9/20, false⟩ : BoomState) = (⟨false, true, 0, 13/30, false⟩ : BoomState) := by
    norm_num [boomScalarStep, clampQ, fixedDt, BOOMERANG_SPEED, BOOMERANG_MAX_DIST,
      BOOMERANG_COOLDOWN]
  have a41 : boomScalarStep fixedDt (⟨false, true, 0, 13/30, false⟩ : BoomState) = (⟨false, true, 0, 5/12, false⟩ : BoomState) := by
    norm_num [boomScalarStep, clampQ, fixedDt, BOOMERANG_SPEED, BOOMERANG_MAX_DIST,
      BOOMERANG_COOLDOWN]
  have a42 : boomScalarStep fixedDt (⟨false, true, 0, 5/12, false⟩ : BoomState) = (⟨false, true, 0, 2/5, false⟩ : BoomState) := by
    norm_num [boomScalarStep, clampQ, fixedDt, BOOMERANG_SPEED, BOOMERANG_MAX_DIST,
      BOOMERANG_COOLDOWN]
  have a43 : boomScalarStep fixedDt (⟨false, true, 0, 2/5, false⟩ : BoomState) = (⟨false, true, 0, 23/60, false⟩ : BoomState) := by
    norm_num [boomScalarStep, clampQ, fixedDt, BOOMERANG_SPEED, BOOMERANG_MAX_DIST,
      BOOMERANG_COOLDOWN]
  have a44 : boomScalarStep fixedDt (⟨false, true, 0, 23/60, false⟩ : BoomState) = (⟨false, true, 0, 11/30, false⟩ : BoomState) := by
    norm_num [boomScalarStep, clampQ, fixedDt, BOOMERANG_SPEED, BOOMERANG_MAX_DIST,
      BOOMERANG_COOLDOWN]
  have a45 : boomScalarStep fixedDt (⟨false, true, 0, 11/30, false⟩ : BoomState) = (⟨false, true, 0, 7/20, false⟩ : BoomState) := by
    norm_num [boomScalarStep, clampQ, fixedDt, BOOMERANG_SPEED, BOOMERANG_MAX_DIST,
      BOOMERANG_COOLDOWN]
  have a46 : boomScalarStep fixedDt (⟨false, true, 0, 7/20, false⟩ : BoomState) = (⟨false, true, 0, 1/3, false⟩ : BoomState) := by
    norm_num [boomScalarStep, clampQ, fixedDt, BOOMERANG_SPEED, BOOMERANG_MAX_DIST,
      BOOMERANG_COOLDOWN]
  have a47 : boomScalarStep fixedDt (⟨false, true, 0, 1/3, false⟩ : BoomState) = (⟨false, true, 0, 19/60, false⟩ : BoomState) := by
    norm_num [boomScalarStep, clampQ, fixedDt, BOOMERANG_SPEED, BOOMERANG_MAX_DIST,
      BOOMERANG_COOLDOWN]
  have a48 : boomScalarStep fixedDt (⟨false, true, 0, 19/60, false⟩ : BoomState) = (⟨false, true, 0, 3/10, false⟩ : BoomState) := by
    norm_num [boomScalarStep, clampQ, fixedDt, BOOMERANG_SPEED, BOOMERANG_MAX_DIST,
      BOOMERANG_COOLDOWN]
  have a49 : boomScalarStep fixedDt (⟨false, true, 0, 3/10, false⟩ : BoomState) = (⟨false, true, 0, 17/60, false⟩ : BoomState) := by
    norm_num [boomScalarStep, clampQ, fixedDt, BOOMERANG_SPEED, BOOMERANG_MAX_DIST,
      BOOMERANG_COOLDOWN]
  have a50 : boomScalarStep fixedDt (⟨false, true, 0, 17/60, false⟩ : BoomState) = (⟨false, true, 0, 4/15, false⟩ : BoomState) := by
    norm_num [boomScalarStep, clampQ, fixedDt, BOOMERANG_SPEED, BOOMERANG_MAX_DIST,
      BOOMERANG_COOLDOWN]
  have a51 : boomScalarStep fixedDt (⟨false, true, 0, 4/15, false⟩ : BoomState) = (⟨false, true, 0, 1/4, false⟩ : BoomState) := by
    norm_num [boomScalarStep, clampQ, fixedDt, BOOMERANG_SPEED, BOOMERANG_MAX_DIST,
      BOOMERANG_COOLDOWN]
  have a52 : boomScalarStep fixedDt (⟨false, true, 0, 1/4, false⟩ : BoomState) = (⟨false, true, 0, 7/30, false⟩ : BoomState) := by
    norm_num [boomScalarStep, clampQ, fixedDt, BOOMERANG_SPEED, BOOMERANG_MAX_DIST,
      BOOMERANG_COOLDOWN]
  have a53 : boomScalarStep fixedDt (⟨false, true, 0, 7/30, false⟩ : BoomState) = (⟨false, true, 0, 13/60, false⟩ : BoomState) := by
    norm_num [boomScalarStep, clampQ, fixedDt, BOOMERANG_SPEED, BOOMERANG_MAX_DIST,
      BOOMERANG_COOLDOWN]
  have a54 : boomScalarStep fixedDt (⟨false, true, 0, 13/60, false⟩ : BoomState) = (⟨false, true, 0, 1/5, false⟩ : BoomState) := by
    norm_num [boomScalarStep, clampQ, fixedDt, BOOMERANG_SPEED, BOOMERANG_MAX_DIST,
      BOOMERANG_COOLDOWN]
  have a55 : boomScalarStep fixedDt (⟨false, true, 0, 1/5, false⟩ : BoomState) = (⟨false, true, 0, 11/60, false⟩ : BoomState) := by
    norm_num [boomScalarStep, clampQ, fixedDt, BOOMERANG_SPEED, BOOMERANG_MAX_DIST,
      BOOMERANG_COOLDOWN]
  have a56 : boomScalarStep fixedDt (⟨false, true, 0, 11/60, false⟩ : BoomState) = (⟨false, true, 0, 1/6, false⟩ : BoomState) := by
    norm_num [boomScalarStep, clampQ, fixedDt, BOOMERANG_SPEED, BOOMERANG_MAX_DIST,
      BOOMERANG_COOLDOWN]
  have a57 : boomScalarStep fixedDt (⟨false, true, 0, 1/6, false⟩ : BoomState) = (⟨false, true, 0, 3/20, false⟩ : BoomState) := by
    norm_num [boomScalarStep, clampQ, fixedDt, BOOMERANG_SPEED, BOOMERANG_MAX_DIST,
      BOOMERANG_COOLDOWN]
  have a58 : boomScalarStep fixedDt (⟨false, true, 0, 3/20, false⟩ : BoomState) = (⟨false, true, 0, 2/15, false⟩ : BoomState) := by
    norm_num [boomScalarStep, clampQ, fixedDt, BOOMERANG_SPEED, BOOMERANG_MAX_DIST,
      BOOMERANG_COOLDOWN]
  have a59 : boomScalarStep fixedDt (⟨false, true, 0, 2/15, false⟩ : BoomState) = (⟨false, true, 0, 7/60, false⟩ : BoomState) := by
    norm_num [boomScalarStep, clampQ, fixedDt, BOOMERANG_SPEED, BOOMERANG_MAX_DIST,
      BOOMERANG_COOLDOWN]
  have a60 : boomScalarStep fixedDt (⟨false, true, 0, 7/60, false⟩ : BoomState) = (⟨false, true, 0, 1/10, false⟩ : BoomState) := by
    norm_num [boomScalarStep, clampQ, fixedDt, BOOMERANG_SPEED, BOOMERANG_MAX_DIST,
      BOOMERANG_COOLDOWN]
  have a61 : boomScalarStep fixedDt (⟨false, true, 0, 1/10, false⟩ : BoomState) = (⟨false, true, 0, 1/12, false⟩ : BoomState) := by
    norm_num [boomScalarStep, clampQ, fixedDt, BOOMERANG_SPEED, BOOMERANG_MAX_DIST,
      BOOMERANG_COOLDOWN]
  have a62 : boomScalarStep fixedDt (⟨false, true, 0, 1/12, false⟩ : BoomState) = (⟨false, true, 0, 1/15, false⟩ : BoomState) := by
    norm_num [boomScalarStep, clampQ, fixedDt, BOOMERANG_SPEED, BOOMERANG_MAX_DIST,
      BOOMERANG_COOLDOWN]
  have a63 : boomScalarStep fixedDt (⟨false, true, 0, 1/15, false⟩ : BoomState) = (⟨false, true, 0, 1/20, false⟩ : BoomState) := by
    norm_num [boomScalarStep, clampQ, fixedDt, BOOMERANG_SPEED, BOOMERANG_MAX_DIST,
      BOOMERANG_COOLDOWN]
  have a64 : boomScalarStep fixedDt (⟨false, true, 0, 1/20, false⟩ : BoomState) = (⟨false, true, 0, 1/30, false⟩ : BoomState) := by
    norm_num [boomScalarStep, clampQ, fixedDt, BOOMERANG_SPEED, BOOMERANG_MAX_DIST,
      BOOMERANG_COOLDOWN]
  have a65 : boomScalarStep fixedDt (⟨false, true, 0, 1/30, false⟩ : BoomState) = (⟨false, true, 0, 1/60, false⟩ : BoomState) := by
    norm_num [boomScalarStep, clampQ, fixedDt, BOOMERANG_SPEED, BOOMERANG_MAX_DIST,
      BOOMERANG_COOLDOWN]
  have a66 : boomScalarStep fixedDt (⟨false, true, 0, 1/60, false⟩ : BoomState) = (⟨true, true, 2/5, 2, true⟩ : BoomState) := by
    norm_num [boomScalarStep, clampQ, fixedDt, BOOMERANG_SPEED, BOOMERANG_MAX_DIST,
      BOOMERANG_COOLDOWN]
  exact boomIterStep 65 _ _ _ a1 (boomIterStep 64 _ _ _ a2 (boomIterStep 63 _ _ _ a3 (boomIterStep 62 _ _ _ a4 (boomIterStep 61 _ _ _ a5 (boomIterStep 60 _ _ _ a6 (boomIterStep 59 _ _ _ a7 (boomIterStep 58 _ _ _ a8 (boomIterStep 57 _ _ _ a9 (boomIterStep 56 _ _ _ a10 (boomIterStep 55 _ _ _ a11 (boomIterStep 54 _ _ _ a12 (boomIterStep 53 _ _ _ a13 (boomIterStep 52 _ _ _ a14 (boomIterStep 51 _ _ _ a15 (boomIterStep 50 _ _ _ a16 (boomIterStep 49 _ _ _ a17 (boomIterStep 48 _ _ _ a18 (boomIterStep 47 _ _ _ a19 (boomIterStep 46 _ _ _ a20 (boomIterStep 45 _ _ _ a21 (boomIterStep 44 _ _ _ a22 (boomIterStep 43 _ _ _ a23 (boomIterStep 42 _ _ _ a24 (boomIterStep 41 _ _ _ a25 (boomIterStep 40 _ _ _ a26 (boomIterStep 39 _ _ _ a27 (boomIterStep 38 _ _ _ a28 (boomIterStep 37 _ _ _ a29 (boomIterStep 36 _ _ _ a30 (boomIterStep 35 _ _ _ a31 (boomIterStep 34 _ _ _ a32 (boomIterStep 33 _ _ _ a33 (boomIterStep 32 _ _ _ a34 (boomIterStep 31 _ _ _ a35 (boomIterStep 30 _ _ _ a36 (boomIterStep 29 _ _ _ a37 (boomIterStep 28 _ _ _ a38 (boomIterStep 27 _ _ _ a39 (boomIterStep 26 _ _ _ a40 (boomIterStep 25 _ _ _ a41 (boomIterStep 24 _ _ _ a42 (boomIterStep 23 _ _ _ a43 (boomIterStep 22 _ _ _ a44 (boomIterStep 21 _ _ _ a45 (boomIterStep 20 _ _ _ a46 (boomIterStep 19 _ _ _ a47 (boomIterStep 18 _ _ _ a48 (boomIterStep 17 _ _ _ a49 (boomIterStep 16 _ _ _ a50 (boomIterStep 15 _ _ _ a51 (boomIterStep 14 _ _ _ a52 (boomIterStep 13 _ _ _ a53 (boomIterStep 12 _ _ _ a54 (boomIterStep 11 _ _ _ a55 (boomIterStep 10 _ _ _ a56 (boomIterStep 9 _ _ _ a57 (boomIterStep 8 _ _ _ a58 (boomIterStep 7 _ _ _ a59 (boomIterStep 6 _ _ _ a60 (boomIterStep 5 _ _ _ a61 (boomIterStep 4 _ _ _ a62 (boomIterStep 3 _ _ _ a63 (boomIterStep 2 _ _ _ a64 (boomIterStep 1 _ _ _ a65 (boomIterStep 0 _ _ _ a66 rfl)))))))))))))))))))))))))))))))))))))))))))))))))))))))))))))))))

/-- Claim C4: for every reachable state the boomerang's distance lies in
`[0, MAX_DIST]` and `active` is false exactly when the distance is 0
(`visible` tracks `active`); a full launch cycle from a just-expired
cooldown grows the distance by `SPEED*dt` per tick to exactly `MAX_DIST`,
flips to inbound on that same tick, shrinks back and ends at exactly 0 with
the projectile inactive and hidden after 80 fixed ticks; the scalar machine
is precisely the boomerang component of the tick update. -/
theorem claim4_distance_invariant_and_cycle :
    (∀ (invMass : ℝ) (s : GameState), Reachable invMass s →
      (0 ≤ s.boom.distance ∧ s.boom.distance ≤ BOOMERANG_MAX_DIST) ∧
      (s.boom.active = false → s.boom.distance = 0) ∧
      (s.boom.active = true → 0 < s.boom.distance) ∧
      s.boom.visible = s.boom.active) ∧
    ((fun x => boomScalarStep fixedDt x)^[40] ⟨false, true, 0, 0, false⟩
        = ⟨true, false, 16, 27/20, true⟩) ∧
    ((fun x => boomScalarStep fixedDt x)^[80] ⟨false, true, 0, 0, false⟩
        = ⟨false, false, 0, 41/60, false⟩) ∧
    (∀ (dt : ℚ) (p u : Vec3) (st : GameState),
      (updateEnemyAndBoomerang dt p u st).boom = boomScalarStep dt st.boom) :=
  ⟨fun invMass s h => reachable_boomInv invMass s h, boomCycleOut, boomCycleFull,
    updateEnemyAndBoomerang_boom⟩

/-- Claim C5 (amended): the cooldown is decremented by `dt` every tick,
active or not; when the decremented cooldown reaches `≤ 0` while the
projectile is inactive, the tick launches it — distance reset to 0 and then
moved outbound by `SPEED*dt`, `outward = true`, cooldown reset to its
constant; while the cooldown has not expired an inactive boomerang only
counts down. -/
theorem claim5_cooldown_behaviour :
    (∀ (dt : ℚ) (b : BoomState), b.active = true →
      (boomScalarStep dt b).cooldown = b.cooldown - dt) ∧
    (∀ (dt : ℚ) (b : BoomState), b.active = false → b.cooldown - dt ≤ 0 →
      0 < dt → BOOMERANG_SPEED * dt < BOOMERANG_MAX_DIST →
      boomScalarStep dt b
        = ⟨true, true, BOOMERANG_SPEED * dt, BOOMERANG_COOLDOWN, true⟩) ∧
    (∀ (dt : ℚ) (b : BoomState), b.active = false → 0 < b.cooldown - dt →
      boomScalarStep dt b = { b with cooldown := b.cooldown - dt }) ∧
    (∀ (dt : ℚ) (p u : Vec3) (st : GameState),
      (updateEnemyAndBoomerang dt p u st).boom = boomScalarStep dt st.boom) := by
  refine ⟨?_, ?_, boomScalarStep_idle, updateEnemyAndBoomerang_boom⟩
  · intro dt b hA
    simp only [boomScalarStep, hA]
    simp only [Bool.not_true, Bool.false_and, if_false, Bool.false_eq_true]
    split_ifs <;> rfl
  · intro dt b hA hcd hdt hlt
    have hpos : 0 < BOOMERANG_SPEED * dt := by rw [BOOMERANG_SPEED]; nlinarith
    have hval : clampQ (BOOMERANG_SPEED * dt) 0 BOOMERANG_MAX_DIST
        = BOOMERANG_SPEED * dt :=
      clampQ_eq_self _ _ _ (le_of_lt hpos) (le_of_lt hlt)
    have hne : ¬ (BOOMERANG_SPEED * dt ≤ 0) := not_le.mpr hpos
    have hmax : ¬ (BOOMERANG_MAX_DIST ≤ BOOMERANG_SPEED * dt) := not_le.mpr hlt
    obtain ⟨ba, bo, bd, bc, bv⟩ := b
    simp only at hA hcd
    subst hA
    simp [boomScalarStep, hcd, hval, hne, hmax]

/-- Counterexample for claim C5 as stated: 66 fixed ticks from the initial
boomerang state reach the first launch (an active state with cooldown 2),
and the very next tick — with the projectile active the whole tick —
still decrements the cooldown by `dt`. -/
theorem claim5_counterexample :
    ((fun x => boomScalarStep fixedDt x)^[66] ⟨false, true, 0, 11/10, false⟩
        = ⟨true, true, 2/5, 2, true⟩) ∧
    (⟨true, true, 2/5, 2, true⟩ : BoomState).active = true ∧
    (boomScalarStep fixedDt ⟨true, true, 2/5, 2, true⟩).cooldown = 2 - fixedDt ∧
    (boomScalarStep fixedDt ⟨true, true, 2/5, 2, true⟩).cooldown
      ≠ (⟨true, true, 2/5, 2, true⟩ : BoomState).cooldown := by
  refine ⟨boomReachActive, rfl, ?_, ?_⟩ <;>
    norm_num [boomScalarStep, clampQ, fixedDt, BOOMERANG_SPEED, BOOMERANG_MAX_DIST,
      BOOMERANG_COOLDOWN]

/-! ## Claims C2 and C3. -/

/-- Claim C2 (amended): a grounded buffered jump taken while the combo
timer is within the window uses the impulse of the current stage and
advances the index cyclically `0→1→2→0`, disarming the timer to `⊤`; a
jump taken with the timer beyond the window resets to stage 0 first (base
impulse, next index 1); but the index is also zeroed by any tick on which
the ray-cast misses while the combo timer is disarmed (`⊤ > window`) — in
particular on every airborne tick after a jump — not only by grounded
overstay. -/
theorem claim2_combo_behaviour :
    (∀ (invMass : ℝ) (dt : ℚ) (inp : TickInput) (s : GameState),
      jumpFires dt inp s = true →
      ¬ ((JUMP_COMBO_WINDOW : WithTop ℚ) <
          comboTimerPost dt inp.rayHit s.player.wasGrounded s.player.comboTimer) →
      tickJumpImpulse dt inp s = some (JUMP_IMPULSES.getD s.player.jumpComboIndex 0) ∧
      (prePhase invMass dt inp s).player.jumpComboIndex
        = (if 2 ≤ s.player.jumpComboIndex then 0 else s.player.jumpComboIndex + 1) ∧
      (prePhase invMass dt inp s).player.comboTimer = ⊤) ∧
    (∀ (invMass : ℝ) (dt : ℚ) (inp : TickInput) (s : GameState),
      jumpFires dt inp s = true →
      (JUMP_COMBO_WINDOW : WithTop ℚ) <
          comboTimerPost dt inp.rayHit s.player.wasGrounded s.player.comboTimer →
      tickJumpImpulse dt inp s = some (JUMP_IMPULSES.getD 0 0) ∧
      (prePhase invMass dt inp s).player.jumpComboIndex = 1) ∧
    (∀ (invMass : ℝ) (dt : ℚ) (inp : TickInput) (s : GameState),
      inp.rayHit = false → s.player.comboTimer = ⊤ →
      (prePhase invMass dt inp s).player.jumpComboIndex = 0) := by
  refine ⟨?_, ?_, ?_⟩
  · intro invMass dt inp s hf hw
    have hidx : comboIdxAtJump dt inp s = s.player.jumpComboIndex := by
      rw [comboIdxAtJump, if_neg hw, comboIdxPre, if_neg hw]
    refine ⟨?_, ?_, ?_⟩
    · rw [tickJumpImpulse, if_pos hf, jumpImpulseQ, hidx]
    · simp only [prePhase, hf, if_true, hidx, JUMP_IMPULSES]
      norm_num
    · simp only [prePhase, hf, if_true]
  · intro invMass dt inp s hf hw
    have hidx : comboIdxAtJump dt inp s = 0 := by rw [comboIdxAtJump, if_pos hw]
    refine ⟨?_, ?_⟩
    · rw [tickJumpImpulse, if_pos hf, jumpImpulseQ, hidx]
    · simp only [prePhase, hf, if_true, hidx, JUMP_IMPULSES]
      norm_num
  · intro invMass dt inp s hray htop
    have hf : jumpFires dt inp s = false := by simp [jumpFires, hray]
    have hw : (JUMP_COMBO_WINDOW : WithTop ℚ) <
        comboTimerPost dt inp.rayHit s.player.wasGrounded s.player.comboTimer := by
      rw [comboTimerPost, hray, htop]
      simp
    simp only [prePhase, hf, if_false, Bool.false_eq_true, comboIdxPre, if_pos hw]

/-- Ground-contact tick of the counterexample traces: the ray-cast hits,
no keys held, and the physics oracle keeps the body at the spawn point
with zero velocity. -/
noncomputable def inpGround : TickInput :=
  ⟨true, false, false, false, false, false, false, 0, spawnPos, Vec3.zero⟩

/-- Airborne tick: same, but the ray-cast misses. -/
noncomputable def inpAir : TickInput :=
  ⟨false, false, false, false, false, false, false, 0, spawnPos, Vec3.zero⟩

/-- Tick 1 of the combo counterexample: jump pressed, then a grounded tick
from the initial state — the jump fires and advances the combo index. -/
noncomputable def comboTraceT1 : GameState := physicsStep 1 fixedDt inpGround (pressJump initState)

/-- Tick 2: the player is airborne (ray-cast misses). -/
noncomputable def comboTraceT2 : GameState := physicsStep 1 fixedDt inpAir comboTraceT1

theorem comboTraceT1_eq :
    comboTraceT1 = ⟨⟨spawnPos, Vec3.zero, false, false, 1, ⊤, 0, false, 0⟩,
      ⟨false, true, 0, 65/60, false⟩⟩ := by
  rw [comboTraceT1, physicsStep,
    postPhase_plain fixedDt inpGround _ spawn_not_escaped rfl
      (by show (0:ℚ) < (1.1 : ℚ) - fixedDt; rw [fixedDt]; norm_num) spawn_not_near_goal]
  simp only [prePhase, GameState.mk.injEq, PlayerState.mk.injEq, BoomState.mk.injEq]
  norm_num [jumpFires, comboIdxAtJump, comboIdxPre, comboTimerPost, bufferPost,
    pressJump, initState, inpGround, fixedDt, JUMP_BUFFER_TIME, JUMP_COMBO_WINDOW,
    JUMP_IMPULSES]

theorem comboTraceT2_eq :
    comboTraceT2 = ⟨⟨spawnPos, Vec3.zero, false, false, 0, ⊤, 0, false, 0⟩,
      ⟨false, true, 0, 16/15, false⟩⟩ := by
  rw [comboTraceT2, comboTraceT1_eq, physicsStep,
    postPhase_plain fixedDt inpAir _ spawn_not_escaped rfl
      (by show (0:ℚ) < 65/60 - fixedDt; rw [fixedDt]; norm_num) spawn_not_near_goal]
  simp only [prePhase, GameState.mk.injEq, PlayerState.mk.injEq, BoomState.mk.injEq]
  norm_num [jumpFires, comboIdxAtJump, comboIdxPre, comboTimerPost, bufferPost,
    inpAir, fixedDt, JUMP_COMBO_WINDOW, JUMP_IMPULSES]

/-- Counterexample for claim C2 as stated: from the initial state, a first
grounded buffered jump advances the combo index to 1, but one airborne tick
immediately zeroes it (the disarmed `⊤` timer exceeds the window with the
player merely airborne, no grounded overstay); the next grounded jump —
taken the tick the player becomes grounded again, with the combo timer
re-armed well inside the window — therefore uses the stage-0 impulse
instead of stage 1's. -/
theorem claim2_counterexample :
    comboTraceT1.player.jumpComboIndex = 1 ∧
    comboTraceT1.player.comboTimer = ⊤ ∧
    comboTraceT2.player.jumpComboIndex = 0 ∧
    comboTimerPost fixedDt true comboTraceT2.player.wasGrounded
        comboTraceT2.player.comboTimer = ((fixedDt : ℚ) : WithTop ℚ) ∧
    ¬ ((JUMP_COMBO_WINDOW : WithTop ℚ) < ((fixedDt : ℚ) : WithTop ℚ)) ∧
    tickJumpImpulse fixedDt inpGround (pressJump comboTraceT2)
      = some (JUMP_IMPULSES.getD 0 0) ∧
    JUMP_IMPULSES.getD 0 0 ≠ JUMP_IMPULSES.getD 1 0 := by
  rw [comboTraceT1_eq, comboTraceT2_eq]
  refine ⟨rfl, rfl, rfl, ?_, ?_, ?_, ?_⟩
  · simp [comboTimerPost]
  · rw [JUMP_COMBO_WINDOW, fixedDt]
    simp only [WithTop.coe_lt_coe, not_lt]
    norm_num
  · norm_num [tickJumpImpulse, jumpFires, jumpImpulseQ, comboIdxAtJump, comboIdxPre,
      comboTimerPost, bufferPost, pressJump, inpGround, fixedDt, JUMP_BUFFER_TIME,
      JUMP_COMBO_WINDOW, JUMP_IMPULSES]
  · norm_num [JUMP_IMPULSES]

/-- Claim C3 (amended): a `Space` press re-arms the buffer timer to exactly
`JUMP_BUFFER_TIME` (no summing); on a grounded tick while not cleared with
the decremented buffer still positive the jump fires and consumes the
buffer (sets it to 0); a buffer that has already run out never fires; and
on a tick with no jump the buffer simply counts down. The cleared flag
disables the jump branch, so the claim holds only for not-yet-cleared runs. -/
theorem claim3_buffer_behaviour :
    (∀ s : GameState, (pressJump s).player.jumpBufferTimer = JUMP_BUFFER_TIME) ∧
    (∀ (invMass : ℝ) (dt : ℚ) (inp : TickInput) (s : GameState),
      s.player.isClear = false → inp.rayHit = true →
      0 < bufferPost dt s.player.jumpBufferTimer →
      tickJumpImpulse dt inp s = some (jumpImpulseQ dt inp s) ∧
      (prePhase invMass dt inp s).player.jumpBufferTimer = 0) ∧
    (∀ (dt : ℚ) (inp : TickInput) (s : GameState),
      bufferPost dt s.player.jumpBufferTimer ≤ 0 → tickJumpImpulse dt inp s = none) ∧
    (∀ (invMass : ℝ) (dt : ℚ) (inp : TickInput) (s : GameState),
      jumpFires dt inp s = false →
      (prePhase invMass dt inp s).player.jumpBufferTimer
        = bufferPost dt s.player.jumpBufferTimer) := by
  refine ⟨fun s => rfl, ?_, ?_, ?_⟩
  · intro invMass dt inp s hclear hray hbuf
    have hf : jumpFires dt inp s = true := by
      simp [jumpFires, hclear, hray, hbuf]
    exact ⟨by rw [tickJumpImpulse, if_pos hf], by simp only [prePhase, hf, if_true]⟩
  · intro dt inp s hbuf
    have hf : jumpFires dt inp s = false := by
      simp [jumpFires, not_lt.mpr hbuf]
    rw [tickJumpImpulse, if_neg (by simp [hf])]
  · intro invMass dt inp s hf
    simp only [prePhase, hf, if_false, Bool.false_eq_true]

/-- Goal-touch tick: the ray-cast misses and the oracle has moved the body
exactly onto the goal point. -/
noncomputable def inpGoal : TickInput :=
  ⟨false, false, false, false, false, false, false, 0, goalPos, Vec3.zero⟩

/-- Grounded tick at the goal point. -/
noncomputable def inpGoalGround : TickInput :=
  ⟨true, false, false, false, false, false, false, 0, goalPos, Vec3.zero⟩

/-- Tick 1 of the cleared-buffer counterexample: the player touches the
goal, latching the cleared flag. -/
noncomputable def clearTraceU1 : GameState := physicsStep 1 fixedDt inpGoal initState

theorem clearTraceU1_eq :
    clearTraceU1 = ⟨⟨goalPos, Vec3.zero, false, false, 0, ⊤, 0, true, 0⟩,
      ⟨false, true, 0, 65/60, false⟩⟩ := by
  rw [clearTraceU1, physicsStep,
    postPhase_clear fixedDt inpGoal _ goalPos_not_escaped rfl
      (by show (0:ℚ) < (1.1 : ℚ) - fixedDt; rw [fixedDt]; norm_num) goalPos_near_goal rfl]
  simp only [prePhase, GameState.mk.injEq, PlayerState.mk.injEq, BoomState.mk.injEq]
  norm_num [jumpFires, comboIdxAtJump, comboIdxPre, comboTimerPost, bufferPost,
    initState, inpGoal, fixedDt, JUMP_COMBO_WINDOW]

/-- Counterexample for claim C3 as stated: after clearing the goal, the
player presses jump and becomes grounded on the very next tick with the
buffer timer still positive — yet no jump executes, because the cleared
flag skips the whole input branch. -/
theorem claim3_counterexample :
    clearTraceU1.player.isClear = true ∧
    clearTraceU1.player.wasGrounded = false ∧
    inpGoalGround.rayHit = true ∧
    0 < bufferPost fixedDt (pressJump clearTraceU1).player.jumpBufferTimer ∧
    tickJumpImpulse fixedDt inpGoalGround (pressJump clearTraceU1) = none := by
  rw [clearTraceU1_eq]
  refine ⟨rfl, rfl, rfl, ?_, ?_⟩
  · norm_num [bufferPost, pressJump, fixedDt, JUMP_BUFFER_TIME]
  · simp [tickJumpImpulse, jumpFires, pressJump]

/-! ## Claim C6: the tangential speed bound of the locomotion step. -/

theorem speedCapOf_nonneg (inp : TickInput) : 0 ≤ speedCapOf inp := by
  simp only [speedCapOf, BASE_SPEED, DASH_MULTIPLIER]
  split_ifs <;> norm_num

theorem maxDeltaOf_nonneg (dt : ℚ) (inp : TickInput) (hdt : 0 ≤ dt) :
    0 ≤ maxDeltaOf dt inp := by
  have hdt' : (0 : ℝ) ≤ (dt : ℝ) := by exact_mod_cast hdt
  simp only [maxDeltaOf, BASE_ACCEL_GROUND, BASE_ACCEL_AIR]
  split_ifs <;> nlinarith [hdt']

theorem dragOf_nonneg (inp : TickInput) : 0 ≤ dragOf inp := by
  simp only [dragOf, BASE_DRAG_GROUND, BASE_DRAG_AIR]
  split_ifs <;> norm_num

theorem Vec3.length_normalize_le_one (v : Vec3) : v.normalize.length ≤ 1 := by
  by_cases h : v = Vec3.zero
  · subst h
    rw [Vec3.normalize_of_length_eq_zero _ ((Vec3.length_eq_zero_iff _).mpr rfl),
      (Vec3.length_eq_zero_iff Vec3.zero).mpr rfl]
    norm_num
  · exact le_of_eq (Vec3.length_normalize v h)

/-- The wish direction is either normalized or the zero vector. -/
theorem wishDirOf_length_le (yaw : ℝ) (u : Vec3) (mX mZ : ℤ) :
    (wishDirOf yaw u mX mZ).length ≤ 1 := by
  simp only [wishDirOf]
  split_ifs with h
  · exact Vec3.length_normalize_le_one _
  · have h0 := le_antisymm (not_lt.mp h) (Vec3.lengthSq_nonneg _)
    rw [(Vec3.lengthSq_eq_zero_iff _).mp h0,
      (Vec3.length_eq_zero_iff Vec3.zero).mpr rfl]
    norm_num

/-- A convex combination is no longer than the longer of its endpoints. -/
theorem Vec3.length_convex (a b : Vec3) (c : ℝ) (h0 : 0 ≤ c) (h1 : c ≤ 1) :
    ((a.smul (1 - c)).add (b.smul c)).length ≤ max a.length b.length := by
  have htri := Vec3.length_add_le (a.smul (1 - c)) (b.smul c)
  rw [Vec3.length_smul, Vec3.length_smul,
    abs_of_nonneg (by linarith : (0 : ℝ) ≤ 1 - c), abs_of_nonneg h0] at htri
  have hma := le_max_left a.length b.length
  have hmb := le_max_right a.length b.length
  nlinarith [mul_nonneg (by linarith : (0 : ℝ) ≤ 1 - c) (sub_nonneg.mpr hma),
    mul_nonneg h0 (sub_nonneg.mpr hmb)]

theorem targetVelOf_length_le (inp : TickInput) (s : GameState) :
    (targetVelOf inp s).length ≤ speedCapOf inp := by
  rw [targetVelOf, Vec3.length_smul, abs_of_nonneg (speedCapOf_nonneg inp)]
  have h := mul_le_mul_of_nonneg_left
    (wishDirOf_length_le inp.yaw (s.player.pos.normalize) (moveXOf inp) (moveZOf inp))
    (speedCapOf_nonneg inp)
  linarith

/-- The locomotion output: a drag factor in `[0, 1]` applied to a convex
combination of the incoming tangential velocity and the target velocity, so
its length is bounded by the larger of the two. -/
theorem tangentialNewOf_length_le (dt : ℚ) (inp : TickInput) (s : GameState) (hdt : 0 ≤ dt) :
    (tangentialNewOf dt inp s).length
      ≤ max (tangentialVelOf dt s).length (speedCapOf inp) := by
  have hdt' : (0 : ℝ) ≤ (dt : ℝ) := by exact_mod_cast hdt
  have hsum : ((tangentialVelOf dt s).add (deltaVelOf dt inp s)).length
      ≤ max (tangentialVelOf dt s).length (speedCapOf inp) := by
    simp only [deltaVelOf]
    split_ifs with hclamp
    · have hmd := maxDeltaOf_nonneg dt inp hdt
      have hlenpos : 0 < ((targetVelOf inp s).sub (tangentialVelOf dt s)).length :=
        lt_of_le_of_lt hmd hclamp
      have hne : (targetVelOf inp s).sub (tangentialVelOf dt s) ≠ Vec3.zero := by
        intro hz
        have hzl := (Vec3.length_eq_zero_iff _).mpr hz
        rw [hzl] at hlenpos
        exact lt_irrefl 0 hlenpos
      have hsl : ((targetVelOf inp s).sub (tangentialVelOf dt s)).setLength (maxDeltaOf dt inp)
          = ((targetVelOf inp s).sub (tangentialVelOf dt s)).smul
              (1 / ((targetVelOf inp s).sub (tangentialVelOf dt s)).length
                * maxDeltaOf dt inp) := by
        rw [Vec3.setLength, Vec3.normalize_eq_smul _ hne]
        ext <;> simp only [Vec3.smul] <;> ring
      have hc0 : 0 ≤ 1 / ((targetVelOf inp s).sub (tangentialVelOf dt s)).length
          * maxDeltaOf dt inp :=
        mul_nonneg (le_of_lt (one_div_pos.mpr hlenpos)) hmd
      have hc1 : 1 / ((targetVelOf inp s).sub (tangentialVelOf dt s)).length
          * maxDeltaOf dt inp ≤ 1 := by
        rw [one_div, inv_mul_eq_div]
        exact (div_le_one hlenpos).mpr (le_of_lt hclamp)
      have hcomb : (tangentialVelOf dt s).add
          (((targetVelOf inp s).sub (tangentialVelOf dt s)).smul
            (1 / ((targetVelOf inp s).sub (tangentialVelOf dt s)).length
              * maxDeltaOf dt inp))
          = ((tangentialVelOf dt s).smul
              (1 - 1 / ((targetVelOf inp s).sub (tangentialVelOf dt s)).length
                * maxDeltaOf dt inp)).add
            ((targetVelOf inp s).smul
              (1 / ((targetVelOf inp s).sub (tangentialVelOf dt s)).length
                * maxDeltaOf dt inp)) := by
        ext <;> simp only [Vec3.add, Vec3.sub, Vec3.smul] <;> ring
      rw [hsl, hcomb]
      exact le_trans
        (Vec3.length_convex (tangentialVelOf dt s) (targetVelOf inp s) _ hc0 hc1)
        (max_le (le_max_left _ _)
          (le_trans (targetVelOf_length_le inp s) (le_max_right _ _)))
    · have hid : (tangentialVelOf dt s).add ((targetVelOf inp s).sub (tangentialVelOf dt s))
          = targetVelOf inp s := by
        ext <;> simp only [Vec3.add, Vec3.sub] <;> ring
      rw [hid]
      exact le_trans (targetVelOf_length_le inp s) (le_max_right _ _)
  rw [tangentialNewOf, Vec3.length_smul]
  have hf0 : (0 : ℝ) ≤ max 0 (1 - dragOf inp * (dt : ℝ)) := le_max_left _ _
  have hf1 : max 0 (1 - dragOf inp * (dt : ℝ)) ≤ 1 := by
    apply max_le
    · norm_num
    · nlinarith [dragOf_nonneg inp, hdt']
  rw [abs_of_nonneg hf0]
  calc max 0 (1 - dragOf inp * (dt : ℝ))
        * ((tangentialVelOf dt s).add (deltaVelOf dt inp s)).length
      ≤ 1 * max (tangentialVelOf dt s).length (speedCapOf inp) :=
        mul_le_mul hf1 hsum (Vec3.length_nonneg _) (by norm_num)
    _ = max (tangentialVelOf dt s).length (speedCapOf inp) := one_mul _

/-- Claim C6 (amended): the locomotion pipeline is a contraction toward the
speed cap. For any tick the tangential speed the tick itself commits never
exceeds the larger of the incoming tangential speed and the speed cap
`BASE_SPEED * dashMult`; in particular, whenever the incoming tangential
speed already respects the claimed `speedCap + maxDelta` bound, the committed
one does too — and the incoming tangential speed is exactly the tangential
part of the tick-start velocity, gravity being purely radial. As a
reachable-state invariant the claimed bound is false (see the
counterexample): the boomerang knockback and the physics engine's collision
response feed back arbitrary velocities that the locomotion clamp never sees. -/
theorem claim6_tangential_speed_bound (dt : ℚ) (inp : TickInput) (s : GameState)
    (hdt : 0 ≤ dt) (hpos : s.player.pos ≠ Vec3.zero) :
    (projectOnPlane (commitVelocity dt inp s) (s.player.pos.normalize)).length
        ≤ max (tangentialVelOf dt s).length (speedCapOf inp) ∧
      ((tangentialVelOf dt s).length ≤ speedCapOf inp + maxDeltaOf dt inp →
        (projectOnPlane (commitVelocity dt inp s) (s.player.pos.normalize)).length
          ≤ speedCapOf inp + maxDeltaOf dt inp) ∧
      tangentialVelOf dt s = projectOnPlane s.player.vel (s.player.pos.normalize) := by
  have hu := Vec3.normalize_unit s.player.pos hpos
  have hmain : (projectOnPlane (commitVelocity dt inp s) (s.player.pos.normalize)).length
      ≤ max (tangentialVelOf dt s).length (speedCapOf inp) := by
    by_cases hC : s.player.isClear = true
    · rw [commitVelocity, if_pos hC]
      exact le_max_left (tangentialVelOf dt s).length (speedCapOf inp)
    · have hC' : s.player.isClear = false := by simpa using hC
      rw [commitVelocity_project dt inp s hu hC']
      exact tangentialNewOf_length_le dt inp s hdt
  refine ⟨hmain, fun hin => le_trans hmain (max_le hin ?_),
    tangentialVelOf_eq_project dt s hu⟩
  exact le_add_of_nonneg_right (maxDeltaOf_nonneg dt inp hdt)

/-- An idle tick input used to instantiate the speed-bound theorem. -/
noncomputable def inpIdle6 : TickInput :=
  { rayHit := false, keyW := false, keyA := false, keyS := false, keyD := false,
    shiftL := false, shiftR := false, yaw := 0, stepPos := spawnPos, stepVel := Vec3.zero }

/-- Witness for claim C6 at the initial state and the fixed tick length. -/
theorem claim6_tangential_speed_bound_witness :
    (0 : ℚ) ≤ fixedDt ∧ initState.player.pos ≠ Vec3.zero ∧
    ((projectOnPlane (commitVelocity fixedDt inpIdle6 initState)
          (initState.player.pos.normalize)).length
        ≤ max (tangentialVelOf fixedDt initState).length (speedCapOf inpIdle6) ∧
      ((tangentialVelOf fixedDt initState).length
          ≤ speedCapOf inpIdle6 + maxDeltaOf fixedDt inpIdle6 →
        (projectOnPlane (commitVelocity fixedDt inpIdle6 initState)
            (initState.player.pos.normalize)).length
          ≤ speedCapOf inpIdle6 + maxDeltaOf fixedDt inpIdle6) ∧
      tangentialVelOf fixedDt initState
        = projectOnPlane initState.player.vel (initState.player.pos.normalize)) :=
  ⟨by norm_num [fixedDt], spawnPos_ne_zero,
    claim6_tangential_speed_bound fixedDt inpIdle6 initState
      (by norm_num [fixedDt]) spawnPos_ne_zero⟩

/-- The oracle input of the counterexample tick: the physics step ends with
the player still on the planet but carrying a large velocity. -/
noncomputable def inpFast6 : TickInput :=
  { rayHit := false, keyW := false, keyA := false, keyS := false, keyD := false,
    shiftL := false, shiftR := false, yaw := 0, stepPos := spawnPos,
    stepVel := ⟨100, 0, 0⟩ }

/-- The state one tick from initialization under that oracle answer. -/
noncomputable def sFast6 : GameState := physicsStep 1 fixedDt inpFast6 initState

theorem sFast6_fields :
    sFast6.player.pos = spawnPos ∧ sFast6.player.vel = (⟨100, 0, 0⟩ : Vec3) := by
  have h := postPhase_plain fixedDt inpFast6 (prePhase 1 fixedDt inpFast6 initState)
    (by
      rw [show inpFast6.stepPos = spawnPos from rfl, spawnPos_length, PLANET_RADIUS]
      norm_num)
    rfl
    (by show (0 : ℚ) < (1.1 : ℚ) - fixedDt; rw [fixedDt]; norm_num)
    spawn_not_near_goal
  constructor
  · show (postPhase fixedDt inpFast6 (prePhase 1 fixedDt inpFast6 initState)).player.pos
      = spawnPos
    rw [h]
    rfl
  · show (postPhase fixedDt inpFast6 (prePhase 1 fixedDt inpFast6 initState)).player.vel
      = (⟨100, 0, 0⟩ : Vec3)
    rw [h]
    rfl

/-- Counterexample for claim C6 as stated: one fixed tick from the initial
state in which the physics engine reports a large post-step velocity leaves
the game in a reachable state whose tangential speed exceeds
`speedCap + maxDelta` for every possible input of the next tick — the
locomotion clamp constrains only the velocity the tick writes, not the one
the engine (or the boomerang knockback) hands back. -/
theorem claim6_counterexample :
    ∃ s : GameState, Reachable 1 s ∧
      ∀ inp : TickInput,
        speedCapOf inp + maxDeltaOf fixedDt inp
          < (projectOnPlane s.player.vel (s.player.pos.normalize)).length := by
  refine ⟨sFast6, Relation.ReflTransGen.single (GameStep.tick inpFast6 initState), ?_⟩
  obtain ⟨hpos, hvel⟩ := sFast6_fields
  have hlen : (projectOnPlane sFast6.player.vel (sFast6.player.pos.normalize)).length
      = 100 := by
    rw [hpos, hvel, spawnPos_normalize]
    have hdot : (⟨100, 0, 0⟩ : Vec3).dot ⟨0, 1, 0⟩ = 0 := by
      simp [Vec3.dot]
    rw [projectOnPlane_of_dot_zero _ _ hdot, Vec3.length,
      show (⟨100, 0, 0⟩ : Vec3).lengthSq = 100 * 100 by simp [Vec3.lengthSq]]
    exact Real.sqrt_mul_self (by norm_num)
  intro inp
  rw [hlen]
  have hcast : ((fixedDt : ℚ) : ℝ) = 1 / 60 := by norm_num [fixedDt]
  simp only [speedCapOf, maxDeltaOf, hcast, BASE_SPEED, DASH_MULTIPLIER,
    BASE_ACCEL_GROUND, BASE_ACCEL_AIR]
  split_ifs <;> norm_num

end Garaxy
